import Mathlib

/-!
# DTMF Generator: keypad navigation and the input-driven state machine

A shallow embedding of `dtmf_generator.c`: the keyboard and tone tables, the
`move_selected` navigation routine, `sound_on` / `sound_off`, and
`dtmf_generator_main` with its event loop and teardown, followed by theorems about
them.

Conventions of the embedding.
* `DTMFState*` is passed as a value and returned updated.
* The recursion of `move_selected` has no bound in C; the embedding takes a `fuel`
  argument counting the recursive re-invocations that are still allowed and
  returns `none` when it is exhausted.
* `DTMFTone* tone` is `none` for `NULL` and `some k` for `&tones[k]`.
* The speaker HAL is outside the program.  It is modelled by the ownership flag the
  program can query, the tone the program is currently driving, and the list of
  HAL calls the program has issued so far.  Whether `furi_hal_speaker_acquire`
  succeeds is decided by the environment and is an explicit boolean input.
* `float` is IEEE 754 binary32 with round-to-nearest, ties-to-even.  A float is
  represented by the rational it denotes; `(float)v` and the float division are
  computed by explicit rounding to 24 significant bits.  The frequency argument is
  recorded as the `int32_t` it is converted from (every table entry is below
  `2 ^ 24`, where the conversion is exact).
-/

namespace DTMF

/-! ## Data model -/

/-- Keys delivered by the input service (`InputKey` of the firmware headers). -/
inductive InputKey where
  | InputKeyUp
  | InputKeyDown
  | InputKeyRight
  | InputKeyLeft
  | InputKeyOk
  | InputKeyBack
  deriving DecidableEq, Repr, Fintype

/-- Kinds of input event (`InputType` of the firmware headers). -/
inductive InputType where
  | InputTypePress
  | InputTypeRelease
  | InputTypeShort
  | InputTypeLong
  | InputTypeRepeat
  deriving DecidableEq, Repr

/-- An input event: which key, and what happened to it. -/
structure InputEvent where
  key : InputKey
  type : InputType
  deriving DecidableEq, Repr

/-- One DTMF tone: key character, low and high frequency in Hz and their strings. -/
structure DTMFTone where
  key : Char
  low : Int
  low_str : String
  high : Int
  high_str : String
  deriving DecidableEq, Repr

/-- Identifier of a selectable cell; the order is the order of the C enum. -/
inductive DTMF_SELECTED where
  | DTMFTone1
  | DTMFTone2
  | DTMFTone3
  | DTMFToneA
  | DTMFTone4
  | DTMFTone5
  | DTMFTone6
  | DTMFToneB
  | DTMFTone7
  | DTMFTone8
  | DTMFTone9
  | DTMFToneC
  | DTMFToneStar
  | DTMFTone0
  | DTMFToneHash
  | DTMFToneD
  | DTMFPlayStop
  | DTMFVolumeUp
  | DTMFVolumeDown
  | DTMFToneInvalid
  deriving DecidableEq, Repr, Fintype

open InputKey InputType DTMF_SELECTED

/-- Integer value of an enum constant, used when the enum indexes `tones`. -/
def DTMF_SELECTED.toNat : DTMF_SELECTED → Nat
  | DTMFTone1 => 0
  | DTMFTone2 => 1
  | DTMFTone3 => 2
  | DTMFToneA => 3
  | DTMFTone4 => 4
  | DTMFTone5 => 5
  | DTMFTone6 => 6
  | DTMFToneB => 7
  | DTMFTone7 => 8
  | DTMFTone8 => 9
  | DTMFTone9 => 10
  | DTMFToneC => 11
  | DTMFToneStar => 12
  | DTMFTone0 => 13
  | DTMFToneHash => 14
  | DTMFToneD => 15
  | DTMFPlayStop => 16
  | DTMFVolumeUp => 17
  | DTMFVolumeDown => 18
  | DTMFToneInvalid => 19

/-- Program state: `tone` is `none` for `NULL`, `some k` for `&tones[k]`. -/
structure DTMFState where
  playing : Bool
  volume : Int
  tone : Option Nat
  selected : DTMF_SELECTED
  deriving DecidableEq, Repr

/-- The keyboard layout, `keyboard[4][5]`. -/
def keyboard : List (List DTMF_SELECTED) :=
  [ [DTMFTone1, DTMFTone2, DTMFTone3, DTMFToneA, DTMFToneInvalid],
    [DTMFTone4, DTMFTone5, DTMFTone6, DTMFToneB, DTMFPlayStop],
    [DTMFTone7, DTMFTone8, DTMFTone9, DTMFToneC, DTMFVolumeUp],
    [DTMFToneStar, DTMFTone0, DTMFToneHash, DTMFToneD, DTMFVolumeDown] ]

/-- Indexing `keyboard[i][j]` with both indices in bounds. -/
def keyboard_at (i : Fin 4) (j : Fin 5) : DTMF_SELECTED :=
  ((keyboard.getD i.val []).getD j.val DTMFToneInvalid)

/-- The array of valid DTMF tones, `tones[]`. -/
def tones : List DTMFTone :=
  [ ⟨'1', 697, "697 Hz", 1209, "1209 Hz"⟩,
    ⟨'2', 697, "697 Hz", 1336, "1336 Hz"⟩,
    ⟨'3', 697, "697 Hz", 1477, "1477 Hz"⟩,
    ⟨'A', 697, "697 Hz", 1633, "1633 Hz"⟩,
    ⟨'4', 770, "770 Hz", 1209, "1209 Hz"⟩,
    ⟨'5', 770, "770 Hz", 1336, "1336 Hz"⟩,
    ⟨'6', 770, "770 Hz", 1477, "1477 Hz"⟩,
    ⟨'B', 770, "770 Hz", 1633, "1633 Hz"⟩,
    ⟨'7', 852, "852 Hz", 1209, "1209 Hz"⟩,
    ⟨'8', 852, "852 Hz", 1336, "1336 Hz"⟩,
    ⟨'9', 852, "852 Hz", 1477, "1477 Hz"⟩,
    ⟨'C', 852, "852 Hz", 1633, "1633 Hz"⟩,
    ⟨'*', 941, "941 Hz", 1209, "1209 Hz"⟩,
    ⟨'0', 941, "941 Hz", 1336, "1336 Hz"⟩,
    ⟨'#', 941, "941 Hz", 1477, "1477 Hz"⟩,
    ⟨'D', 941, "941 Hz", 1633, "1633 Hz"⟩ ]

/-! ## Navigation: `move_selected` -/

/-- The `switch(key)` executed at a matching cell `(i, j)`: `some sel` is the value
assigned to `state->selected` before `goto check_invalid_key`; `none` is the
`default: break`, after which the search loops go on. -/
def switch_key (i : Fin 4) (j : Fin 5) (key : InputKey) : Option DTMF_SELECTED :=
  match key with
  | InputKeyUp =>
    if h : 0 < i.val then some (keyboard_at ⟨i.val - 1, by omega⟩ j)
    else some (keyboard_at ⟨4 - 1, by decide⟩ j)
  | InputKeyDown =>
    if h : i.val < 4 - 1 then some (keyboard_at ⟨i.val + 1, by omega⟩ j)
    else some (keyboard_at ⟨0, by decide⟩ j)
  | InputKeyLeft =>
    if h : 0 < j.val then some (keyboard_at i ⟨j.val - 1, by omega⟩)
    else some (keyboard_at i ⟨5 - 1, by decide⟩)
  | InputKeyRight =>
    if h : j.val < 5 - 1 then some (keyboard_at i ⟨j.val + 1, by omega⟩)
    else some (keyboard_at i ⟨0, by decide⟩)
  | _ => none

/-- The cells in the order the two nested `for` loops visit them. -/
def scan_order : List (Fin 4 × Fin 5) :=
  (List.finRange 4).flatMap (fun i => (List.finRange 5).map (fun j => (i, j)))

/-- The nested search loops of `move_selected` over the cells still to visit, up to
the label `check_invalid_key`. -/
def scan_cells (state : DTMFState) (key : InputKey) : List (Fin 4 × Fin 5) → DTMFState
  | [] => state
  | (i, j) :: rest =>
    if keyboard_at i j = state.selected then
      match switch_key i j key with
      | some sel => { state with selected := sel }
      | none => scan_cells state key rest
    else scan_cells state key rest

/-- The function `move_selected(state, key)`.  `fuel` is the number of recursive
re-invocations still allowed; `none` means the budget was exhausted. -/
def move_selected : Nat → DTMFState → InputKey → Option DTMFState
  | fuel, state, key =>
    let state1 := scan_cells state key scan_order
    if state1.selected = DTMFToneInvalid then
      match fuel with
      | 0 => none
      | fuel1 + 1 => move_selected fuel1 state1 key
    else some state1

/-- Result of `n` successive calls `move_selected(state, key)`. -/
def move_times (fuel : Nat) : Nat → DTMFState → InputKey → Option DTMFState
  | 0, state, _ => some state
  | n + 1, state, key => (move_selected fuel state key).bind (fun s => move_times fuel n s key)

/-! ## Speaker HAL (external) and the sound routines -/

/-- A call into the speaker HAL that has an effect on the peripheral. -/
inductive SpeakerCall where
  | acquire (timeout : Nat)
  | start (frequency : Int) (volume : ℚ)
  | stop
  | release
  deriving DecidableEq

/-- The speaker as the program sees it: `mine` is what `furi_hal_speaker_is_mine()`
returns, `sounding` is the frequency and amplitude the program is driving (if any),
`calls` is the history of HAL calls issued by the program, oldest first. -/
structure Speaker where
  mine : Bool
  sounding : Option (Int × ℚ)
  calls : List SpeakerCall
  deriving DecidableEq

/-- The query `furi_hal_speaker_is_mine()`. -/
def furi_hal_speaker_is_mine (spk : Speaker) : Bool := spk.mine

/-- The call `furi_hal_speaker_acquire(timeout)`; `acq` is the outcome the
environment grants.  Returns the boolean result and the speaker afterwards. -/
def furi_hal_speaker_acquire (acq : Bool) (timeout : Nat) (spk : Speaker) : Bool × Speaker :=
  if acq then (true, { spk with mine := true, calls := spk.calls ++ [SpeakerCall.acquire timeout] })
  else (false, { spk with calls := spk.calls ++ [SpeakerCall.acquire timeout] })

/-- The call `furi_hal_speaker_start(frequency, volume)`. -/
def furi_hal_speaker_start (frequency : Int) (volume : ℚ) (spk : Speaker) : Speaker :=
  { spk with sounding := some (frequency, volume),
             calls := spk.calls ++ [SpeakerCall.start frequency volume] }

/-- The call `furi_hal_speaker_stop()`. -/
def furi_hal_speaker_stop (spk : Speaker) : Speaker :=
  { spk with sounding := none, calls := spk.calls ++ [SpeakerCall.stop] }

/-- The call `furi_hal_speaker_release()`. -/
def furi_hal_speaker_release (spk : Speaker) : Speaker :=
  { spk with mine := false, calls := spk.calls ++ [SpeakerCall.release] }

/-- The function `sound_off()`: stop and release the speaker if it belongs to us. -/
def sound_off (spk : Speaker) : Speaker :=
  if furi_hal_speaker_is_mine spk then
    furi_hal_speaker_release (furi_hal_speaker_stop spk)
  else spk

/-- Round to the nearest integer, ties to even, of the ratio `a / b` of naturals
(`b` positive). -/
def round_half_even (a b : Nat) : Nat :=
  if 2 * (a % b) < b then a / b
  else if b < 2 * (a % b) then a / b + 1
  else if (a / b) % 2 = 0 then a / b
  else a / b + 1

/-- Position of the leading binary digit of `n`, by repeated halving; called with
`fuel = n`, which is always enough. -/
def log2_floor : Nat → Nat → Nat
  | 0, _ => 0
  | fuel + 1, n => if n < 2 then 0 else log2_floor fuel (n / 2) + 1

/-- The conversion `(float)v` of an `int`: exact below `2 ^ 24` in magnitude, else
rounded to 24 significant bits.  The result is again an integer. -/
def int_to_float (v : Int) : Int :=
  if v.natAbs < 2 ^ 24 then v
  else
    let k := log2_floor v.natAbs v.natAbs - 23
    let n := round_half_even v.natAbs (2 ^ k) * 2 ^ k
    if v < 0 then -(n : Int) else (n : Int)

/-- The exponent `e` with `2 ^ e ≤ a / b < 2 ^ (e + 1)`, for positive `a` and `b`. -/
def floor_log2_quotient (a b : Nat) : Int :=
  if log2_floor b b ≤ log2_floor a a then
    (if b * 2 ^ (log2_floor a a - log2_floor b b) ≤ a then
      ((log2_floor a a - log2_floor b b : Nat) : Int)
     else ((log2_floor a a - log2_floor b b : Nat) : Int) - 1)
  else
    (if b ≤ a * 2 ^ (log2_floor b b - log2_floor a a) then
      -((log2_floor b b - log2_floor a a : Nat) : Int)
     else -((log2_floor b b - log2_floor a a : Nat) : Int) - 1)

/-- The binary32 nearest to `a / b` (positive `a`, `b`), as numerator and denominator:
`a / b` is scaled so that it lies in `2 ^ 23 .. 2 ^ 24`, rounded to an integer, and
scaled back.  Quotients of converted `int`s lie in the normal range, so neither
subnormals nor overflow arise. -/
def binary32_quotient (a b : Nat) : Nat × Nat :=
  if 0 ≤ 23 - floor_log2_quotient a b then
    (round_half_even (a * 2 ^ (23 - floor_log2_quotient a b).toNat) b,
      2 ^ (23 - floor_log2_quotient a b).toNat)
  else
    (round_half_even a (b * 2 ^ (floor_log2_quotient a b - 23).toNat) *
      2 ^ (floor_log2_quotient a b - 23).toNat, 1)

/-- The float division `x / y` of two floats holding integers (`y` not zero): the
exact quotient rounded to binary32. -/
def float_div (x y : Int) : ℚ :=
  if x = 0 then 0
  else if decide (x < 0) = decide (y < 0) then
    ((binary32_quotient x.natAbs y.natAbs).1 : ℚ) / ((binary32_quotient x.natAbs y.natAbs).2 : ℚ)
  else
    -(((binary32_quotient x.natAbs y.natAbs).1 : ℚ) / ((binary32_quotient x.natAbs y.natAbs).2 : ℚ))

/-- The function `sound_on(state)`.  `none` is an out-of-bounds read of `tones`
through `state->tone`.  The amplitude is `(float)state->volume / (float)100`. -/
def sound_on (acq : Bool) (state : DTMFState) (spk : Speaker) : Option Speaker :=
  match state.tone with
  | none => some spk
  | some k =>
    let r := if furi_hal_speaker_is_mine spk then (true, spk)
             else furi_hal_speaker_acquire acq 30 spk
    if r.1 then
      match tones.get? k with
      | none => none
      | some t =>
        some (furi_hal_speaker_start t.high
          (float_div (int_to_float state.volume) (int_to_float 100)) r.2)
    else some r.2

/-! ## The event loop of `dtmf_generator_main` -/

/-- Everything the event loop reads and writes. -/
structure LoopState where
  state : DTMFState
  speaker : Speaker
  running : Bool
  deriving DecidableEq

/-- The state in which the loop is entered: the fields set right after `malloc`,
the speaker not owned by the program, `running = true`. -/
def startup : LoopState :=
  { state := { playing := false, volume := 5, tone := none, selected := DTMFTone1 },
    speaker := { mine := false, sounding := none, calls := [] },
    running := true }

/-- The block `if(event.type == InputTypePress) switch(event.key) ...`.  The
increment and decrement are guarded by `volume < 10` and `volume > 0`, so they
cannot overflow an `int`. -/
def on_press (fuel : Nat) (key : InputKey) (ls : LoopState) : Option LoopState :=
  match key with
  | InputKeyOk =>
    if ls.state.selected = DTMFPlayStop then some ls
    else if ls.state.selected = DTMFVolumeUp then
      if ls.state.volume < 10 then
        some { ls with state := { ls.state with volume := ls.state.volume + 1 } }
      else some ls
    else if ls.state.selected = DTMFVolumeDown then
      if ls.state.volume > 0 then
        some { ls with state := { ls.state with volume := ls.state.volume - 1 } }
      else some ls
    else some { ls with state := { ls.state with tone := some ls.state.selected.toNat } }
  | InputKeyLeft | InputKeyRight | InputKeyUp | InputKeyDown =>
    (move_selected fuel ls.state key).map (fun s => { ls with state := s })
  | _ => some { ls with running := false }

/-- The block `if(event.type == InputTypeRelease) switch(event.key) ...`. -/
def on_release (key : InputKey) (ls : LoopState) : LoopState :=
  match key with
  | InputKeyOk =>
    if ls.state.selected = DTMFPlayStop then
      { ls with speaker := sound_off ls.speaker, state := { ls.state with playing := false } }
    else ls
  | _ => ls

/-- The block `if(event.type == InputTypeLong) switch(event.key) ...`. -/
def on_long (acq : Bool) (key : InputKey) (ls : LoopState) : Option LoopState :=
  match key with
  | InputKeyOk =>
    if ls.state.selected = DTMFPlayStop then
      (sound_on acq { ls.state with playing := true } ls.speaker).map
        (fun spk => { ls with state := { ls.state with playing := true }, speaker := spk })
    else some ls
  | _ => some ls

/-- The three consecutive `if(event.type == ...)` blocks run on a received event. -/
def handle_event (fuel : Nat) (acq : Bool) (event : InputEvent) (ls : LoopState) :
    Option LoopState :=
  (if event.type = InputTypePress then on_press fuel event.key ls else some ls).bind
    (fun ls1 =>
      let ls2 := if event.type = InputTypeRelease then on_release event.key ls1 else ls1
      if event.type = InputTypeLong then on_long acq event.key ls2 else some ls2)

/-- One iteration of `while(running)`: `msg` is `none` when the queue read timed
out, `acq` is the result an attempt to acquire the speaker would get. -/
def loop_body (fuel : Nat) (acq : Bool) (msg : Option InputEvent) (ls : LoopState) :
    Option LoopState :=
  match msg with
  | none => some ls
  | some event => handle_event fuel acq event ls

/-- The loop `while(running)` driven by a finite list of iterations. -/
def run (fuel : Nat) : LoopState → List (Bool × Option InputEvent) → Option LoopState
  | ls, [] => some ls
  | ls, (acq, msg) :: rest =>
    if ls.running then (loop_body fuel acq msg ls).bind (fun ls1 => run fuel ls1 rest)
    else some ls

/-- The function `dtmf_generator_main`: `alloc_ok` tells whether `malloc` returned
memory, `inputs` feeds the loop iterations; the speaker is not owned at entry.  The
result is the status code and the speaker left behind; `none` means the loop has
not ended after the given iterations (or an iteration did not return).  After the
loop come `sound_off()`, the release of the display and queue, and `return 0`. -/
def dtmf_generator_main (fuel : Nat) (alloc_ok : Bool)
    (inputs : List (Bool × Option InputEvent)) : Option (Int × Speaker) :=
  if alloc_ok then
    (run fuel startup inputs).bind
      (fun ls => if ls.running then none else some (0, sound_off ls.speaker))
  else some (-1, startup.speaker)

/-! ## Specification-side vocabulary -/

/-- Spec wording: the position one step away in a direction, with wrap-around at
the grid edge (row and column arithmetic is modulo 4 and modulo 5). -/
def neighbour (key : InputKey) (c : Fin 4 × Fin 5) : Fin 4 × Fin 5 :=
  match key with
  | InputKeyUp => (c.1 - 1, c.2)
  | InputKeyDown => (c.1 + 1, c.2)
  | InputKeyLeft => (c.1, c.2 - 1)
  | InputKeyRight => (c.1, c.2 + 1)
  | _ => c

/-- The identifier held by a grid position. -/
def cell_id (c : Fin 4 × Fin 5) : DTMF_SELECTED := keyboard_at c.1 c.2

/-- Spec wording: the identifier one step away from `c`, or, when that identifier is
Invalid, the identifier one further step in the same direction from there. -/
def neighbour_or_skip (key : InputKey) (c : Fin 4 × Fin 5) : DTMF_SELECTED :=
  if cell_id (neighbour key c) = DTMFToneInvalid then cell_id (neighbour key (neighbour key c))
  else cell_id (neighbour key c)

/-- The four navigation keys. -/
def is_direction (key : InputKey) : Prop :=
  key = InputKeyUp ∨ key = InputKeyDown ∨ key = InputKeyLeft ∨ key = InputKeyRight

instance (key : InputKey) : Decidable (is_direction key) := by
  unfold is_direction; infer_instance

/-- Number of moves after which a walk along one axis is back at its start: the
grid dimension along the axis, less one where the Invalid cell lies on the line. -/
def cycle_length (key : InputKey) (c : Fin 4 × Fin 5) : Nat :=
  match key with
  | InputKeyUp | InputKeyDown => if c.2 = 4 then 3 else 4
  | InputKeyLeft | InputKeyRight => if c.1 = 0 then 4 else 5
  | _ => 1

/-- The grid dimension along the axis of a direction: 4 rows, 5 columns. -/
def grid_dimension (key : InputKey) : Nat :=
  match key with
  | InputKeyUp | InputKeyDown => 4
  | InputKeyLeft | InputKeyRight => 5
  | _ => 1

/-- The four low (row) frequencies of the DTMF matrix, top to bottom. -/
def row_frequencies : List Int := [697, 770, 852, 941]

/-- The four high (column) frequencies of the DTMF matrix, left to right. -/
def column_frequencies : List Int := [1209, 1336, 1477, 1633]

/-- The documented key characters, row by row. -/
def key_sequence : List Char :=
  ['1', '2', '3', 'A', '4', '5', '6', 'B', '7', '8', '9', 'C', '*', '0', '#', 'D']

/-- The character of a tone cell, as the enum documents it ("Index of the DTMF Tone
1", ...); `none` for the three controls and the Invalid marker. -/
def key_char : DTMF_SELECTED → Option Char
  | DTMFTone1 => some '1'
  | DTMFTone2 => some '2'
  | DTMFTone3 => some '3'
  | DTMFToneA => some 'A'
  | DTMFTone4 => some '4'
  | DTMFTone5 => some '5'
  | DTMFTone6 => some '6'
  | DTMFToneB => some 'B'
  | DTMFTone7 => some '7'
  | DTMFTone8 => some '8'
  | DTMFTone9 => some '9'
  | DTMFToneC => some 'C'
  | DTMFToneStar => some '*'
  | DTMFTone0 => some '0'
  | DTMFToneHash => some '#'
  | DTMFToneD => some 'D'
  | _ => none

/-- One of the 16 tone cells: not a control and not the Invalid marker. -/
def is_tone_cell (sel : DTMF_SELECTED) : Prop :=
  sel ≠ DTMFPlayStop ∧ sel ≠ DTMFVolumeUp ∧ sel ≠ DTMFVolumeDown ∧ sel ≠ DTMFToneInvalid

instance (sel : DTMF_SELECTED) : Decidable (is_tone_cell sel) := by
  unfold is_tone_cell; infer_instance

/-- The grid positions on the line a direction walks through `c`: its column for Up
and Down, its row for Left and Right. -/
def line_cells (key : InputKey) (c : Fin 4 × Fin 5) : List (Fin 4 × Fin 5) :=
  match key with
  | InputKeyUp | InputKeyDown => (List.finRange 4).map (fun i => (i, c.2))
  | InputKeyLeft | InputKeyRight => (List.finRange 5).map (fun j => (c.1, j))
  | _ => [c]

/-- Number of non-Invalid cells on the line a direction walks through `c`. -/
def line_valid_count (key : InputKey) (c : Fin 4 × Fin 5) : Nat :=
  ((line_cells key c).filter (fun d => decide (cell_id d ≠ DTMFToneInvalid))).length

/-! ## Abbreviations used in the proofs -/

/-- Selection left by the search loops, as a function of the selection only. -/
def scan_sel (sel : DTMF_SELECTED) (key : InputKey) : DTMF_SELECTED :=
  (scan_cells ⟨false, 0, none, sel⟩ key scan_order).selected

/-- Selection left by a whole call with at least one re-invocation allowed. -/
def hop (sel : DTMF_SELECTED) (key : InputKey) : DTMF_SELECTED :=
  if scan_sel sel key = DTMFToneInvalid then scan_sel DTMFToneInvalid key else scan_sel sel key

/-- What every reachable loop state satisfies: the volume is within 0..10, the
selection is a real cell, and `tone` is `NULL` or points into `tones`. -/
def loop_invariant (ls : LoopState) : Prop :=
  0 ≤ ls.state.volume ∧ ls.state.volume ≤ 10 ∧ ls.state.selected ≠ DTMFToneInvalid ∧
    ∀ k, ls.state.tone = some k → k < 16

/-- The event "OK pressed". -/
def ok_press : InputEvent := ⟨InputKeyOk, InputTypePress⟩

/-- The event "OK held long". -/
def ok_long : InputEvent := ⟨InputKeyOk, InputTypeLong⟩

/-- The event "OK released". -/
def ok_release : InputEvent := ⟨InputKeyOk, InputTypeRelease⟩

/-- One guarded increment, `if(volume < 10) volume++`. -/
def volume_up (v : Int) : Int := if v < 10 then v + 1 else v

/-- One guarded decrement, `if(volume > 0) volume--`. -/
def volume_down (v : Int) : Int := if v > 0 then v - 1 else v

/-- Agreement between the `playing` flag and the speaker: the program owns the
speaker only while `playing`, and drives a tone only while it owns the speaker. -/
def speaker_invariant (ls : LoopState) : Prop :=
  (ls.speaker.mine = true → ls.state.playing = true) ∧
    (ls.speaker.sounding ≠ none → ls.speaker.mine = true)

/-- The scenario "choose tone 1, go to Play/Stop, hold OK, move away, release OK":
OK Press on `DTMFTone1`, Down, Left (wrapping to `DTMFPlayStop`), OK Long, Down,
OK Release; the speaker can be acquired throughout. -/
def stuck_tone_inputs : List (Bool × Option InputEvent) :=
  [ (true, some ok_press),
    (true, some ⟨InputKeyDown, InputTypePress⟩),
    (true, some ⟨InputKeyLeft, InputTypePress⟩),
    (true, some ok_long),
    (true, some ⟨InputKeyDown, InputTypePress⟩),
    (true, some ok_release) ]

/-- The scenario "choose tone 1, go to Play/Stop, hold OK, press Back". -/
def quit_while_playing_inputs : List (Bool × Option InputEvent) :=
  [ (true, some ok_press),
    (true, some ⟨InputKeyDown, InputTypePress⟩),
    (true, some ⟨InputKeyLeft, InputTypePress⟩),
    (true, some ok_long),
    (true, some ⟨InputKeyBack, InputTypePress⟩) ]

/-! ## Auxiliary lemmas on navigation -/

theorem scan_cells_eq (state : DTMFState) (key : InputKey) :
    scan_cells state key scan_order = { state with selected := scan_sel state.selected key } := by
  obtain ⟨p, v, t, sel⟩ := state
  cases sel <;> cases key <;> rfl

theorem move_selected_unfold (fuel : Nat) (state : DTMFState) (key : InputKey) :
    move_selected fuel state key =
      if (scan_cells state key scan_order).selected = DTMFToneInvalid then
        (match fuel with
         | 0 => none
         | fuel1 + 1 => move_selected fuel1 (scan_cells state key scan_order) key)
      else some (scan_cells state key scan_order) := by
  cases fuel <;> rfl

theorem scan_sel_invalid (key : InputKey) (hdir : is_direction key) :
    scan_sel DTMFToneInvalid key ≠ DTMFToneInvalid := by
  rcases hdir with h | h | h | h <;> subst h <;> decide

theorem move_selected_hop (fuel : Nat) (state : DTMFState) (key : InputKey)
    (hdir : is_direction key) :
    move_selected (fuel + 1) state key = some { state with selected := hop state.selected key } := by
  rw [move_selected_unfold, scan_cells_eq]
  by_cases h : scan_sel state.selected key = DTMFToneInvalid
  · simp only [h, if_true, hop]
    rw [move_selected_unfold, scan_cells_eq]
    simp [scan_sel_invalid key hdir]
  · simp [h, hop]

theorem hop_valid (sel : DTMF_SELECTED) (key : InputKey) (hdir : is_direction key) :
    hop sel key ≠ DTMFToneInvalid := by
  rcases hdir with h | h | h | h <;> subst h <;> revert sel <;> decide

theorem move_times_hop (fuel n : Nat) (state : DTMFState) (key : InputKey)
    (hdir : is_direction key) :
    move_times (fuel + 1) n state key =
      some { state with selected := (fun s => hop s key)^[n] state.selected } := by
  induction n generalizing state with
  | zero => rfl
  | succ n ih =>
    rw [move_times, move_selected_hop fuel state key hdir, Option.some_bind, ih]
    rfl

theorem hop_neighbour :
    ∀ (key : InputKey) (c : Fin 4 × Fin 5), is_direction key → cell_id c ≠ DTMFToneInvalid →
      hop (cell_id c) key = neighbour_or_skip key c := by
  decide

theorem hop_cycle :
    ∀ (key : InputKey) (c : Fin 4 × Fin 5), is_direction key → cell_id c ≠ DTMFToneInvalid →
      (fun s => hop s key)^[cycle_length key c] (cell_id c) = cell_id c := by
  decide

theorem cycle_length_eq :
    ∀ (key : InputKey) (c : Fin 4 × Fin 5), is_direction key →
      cycle_length key c =
        grid_dimension key -
          (if (cell_id (c.1, 4) = DTMFToneInvalid ∧ (key = InputKeyLeft ∨ key = InputKeyRight)) ∨
              (cell_id (0, c.2) = DTMFToneInvalid ∧ (key = InputKeyUp ∨ key = InputKeyDown))
            then 1 else 0) := by
  decide

theorem line_valid_count_eq :
    ∀ (key : InputKey) (c : Fin 4 × Fin 5), is_direction key →
      line_valid_count key c = cycle_length key c := by
  decide

theorem hop_cycle_minimal :
    ∀ (key : InputKey) (c : Fin 4 × Fin 5), is_direction key → cell_id c ≠ DTMFToneInvalid →
      ∀ m : Fin 5, 0 < m.val → m.val < cycle_length key c →
        (fun s => hop s key)^[m.val] (cell_id c) ≠ cell_id c := by
  decide

theorem cycle_length_le (key : InputKey) (c : Fin 4 × Fin 5) : cycle_length key c ≤ 5 := by
  revert key c
  decide

/-! ## Auxiliary lemmas on the event loop -/

theorem tones_get (k : Nat) (hk : k < 16) : ∃ t, tones.get? k = some t := by
  have hlen : tones.length = 16 := rfl
  exact ⟨tones.get ⟨k, by omega⟩, List.get?_eq_get (by omega)⟩

theorem toNat_lt (sel : DTMF_SELECTED) (h1 : sel ≠ DTMFPlayStop) (h2 : sel ≠ DTMFVolumeUp)
    (h3 : sel ≠ DTMFVolumeDown) (h4 : sel ≠ DTMFToneInvalid) : sel.toNat < 16 := by
  cases sel <;> simp_all [DTMF_SELECTED.toNat]

theorem sound_on_some (acq : Bool) (state : DTMFState) (spk : Speaker)
    (h : ∀ k, state.tone = some k → k < 16) : ∃ spk1, sound_on acq state spk = some spk1 := by
  unfold sound_on
  cases ht : state.tone with
  | none => exact ⟨spk, rfl⟩
  | some k =>
    obtain ⟨t, hk⟩ := tones_get k (h k ht)
    simp only [hk]
    split_ifs <;> exact ⟨_, rfl⟩

theorem loop_body_invariant (fuel : Nat) (acq : Bool) (msg : Option InputEvent) (ls : LoopState)
    (h : loop_invariant ls) :
    ∃ ls1, loop_body (fuel + 1) acq msg ls = some ls1 ∧ loop_invariant ls1 := by
  obtain ⟨hv0, hv10, hsel, htone⟩ := h
  cases msg with
  | none => exact ⟨ls, rfl, hv0, hv10, hsel, htone⟩
  | some event =>
    obtain ⟨key, type⟩ := event
    cases type
    · -- press
      cases key
      case InputKeyOk =>
        simp only [loop_body, handle_event, on_press, if_true, reduceCtorEq, if_false]
        by_cases h1 : ls.state.selected = DTMFPlayStop
        · simp only [h1, if_true, Option.some_bind]
          exact ⟨ls, rfl, hv0, hv10, hsel, htone⟩
        · by_cases h2 : ls.state.selected = DTMFVolumeUp
          · by_cases hv : ls.state.volume < 10
            · simp only [h2, hv, if_true, reduceCtorEq, if_false, Option.some_bind]
              exact ⟨_, rfl, by show 0 ≤ ls.state.volume + 1; omega,
                by show ls.state.volume + 1 ≤ 10; omega, by simp, htone⟩
            · simp only [h2, hv, if_true, reduceCtorEq, if_false, Option.some_bind]
              exact ⟨ls, rfl, hv0, hv10, hsel, htone⟩
          · by_cases h3 : ls.state.selected = DTMFVolumeDown
            · by_cases hv : ls.state.volume > 0
              · simp only [h3, hv, if_true, reduceCtorEq, if_false, Option.some_bind]
                exact ⟨_, rfl, by show 0 ≤ ls.state.volume - 1; omega,
                  by show ls.state.volume - 1 ≤ 10; omega, by simp, htone⟩
              · simp only [h3, hv, if_true, reduceCtorEq, if_false, Option.some_bind]
                exact ⟨ls, rfl, hv0, hv10, hsel, htone⟩
            · simp only [h1, h2, h3, if_false, Option.some_bind]
              refine ⟨_, rfl, hv0, hv10, hsel, ?_⟩
              intro k hk
              have hk1 : ls.state.selected.toNat = k := by simpa using hk
              rw [← hk1]
              exact toNat_lt _ h1 h2 h3 hsel
      case InputKeyBack =>
        exact ⟨{ ls with running := false }, rfl, hv0, hv10, hsel, htone⟩
      all_goals
        simp only [loop_body, handle_event, on_press, if_true, reduceCtorEq, if_false]
        rw [move_selected_hop fuel ls.state _ (by decide)]
        exact ⟨_, rfl, hv0, hv10, hop_valid _ _ (by decide), htone⟩
    · -- release
      cases key
      case InputKeyOk =>
        simp only [loop_body, handle_event, on_release, on_long, if_true, reduceCtorEq, if_false,
          Option.some_bind]
        split
        · exact ⟨_, rfl, hv0, hv10, hsel, htone⟩
        · exact ⟨_, rfl, hv0, hv10, hsel, htone⟩
      all_goals exact ⟨ls, rfl, hv0, hv10, hsel, htone⟩
    · exact ⟨ls, rfl, hv0, hv10, hsel, htone⟩
    · -- long
      cases key
      case InputKeyOk =>
        simp only [loop_body, handle_event, on_long, if_true, reduceCtorEq, if_false,
          Option.some_bind]
        split
        · obtain ⟨spk1, hs⟩ := sound_on_some acq { ls.state with playing := true } ls.speaker htone
          rw [hs]
          exact ⟨_, rfl, hv0, hv10, hsel, htone⟩
        · exact ⟨_, rfl, hv0, hv10, hsel, htone⟩
      all_goals exact ⟨ls, rfl, hv0, hv10, hsel, htone⟩
    · exact ⟨ls, rfl, hv0, hv10, hsel, htone⟩

theorem run_invariant (fuel : Nat) (inputs : List (Bool × Option InputEvent)) (ls : LoopState)
    (h : loop_invariant ls) :
    ∃ ls1, run (fuel + 1) ls inputs = some ls1 ∧ loop_invariant ls1 := by
  induction inputs generalizing ls with
  | nil => exact ⟨ls, rfl, h⟩
  | cons x rest ih =>
    obtain ⟨acq, msg⟩ := x
    by_cases hr : ls.running = true
    · obtain ⟨ls1, h1, hinv⟩ := loop_body_invariant fuel acq msg ls h
      obtain ⟨ls2, h2, hinv2⟩ := ih ls1 hinv
      refine ⟨ls2, ?_, hinv2⟩
      rw [run, if_pos hr, h1, Option.some_bind, h2]
    · refine ⟨ls, ?_, h⟩
      rw [run, if_neg hr]

theorem loop_body_ok_press_up (fuel : Nat) (acq : Bool) (ls : LoopState)
    (hsel : ls.state.selected = DTMFVolumeUp) :
    loop_body fuel acq (some ok_press) ls =
      some { ls with state := { ls.state with volume := volume_up ls.state.volume } } := by
  obtain ⟨⟨p, v, t, sel⟩, spk, r⟩ := ls
  simp only at hsel
  subst hsel
  by_cases hv : v < 10 <;>
    simp [loop_body, handle_event, on_press, ok_press, volume_up, hv]

theorem loop_body_ok_press_down (fuel : Nat) (acq : Bool) (ls : LoopState)
    (hsel : ls.state.selected = DTMFVolumeDown) :
    loop_body fuel acq (some ok_press) ls =
      some { ls with state := { ls.state with volume := volume_down ls.state.volume } } := by
  obtain ⟨⟨p, v, t, sel⟩, spk, r⟩ := ls
  simp only at hsel
  subst hsel
  by_cases hv : v > 0 <;>
    simp [loop_body, handle_event, on_press, ok_press, volume_down, hv]

theorem run_ok_press_up (fuel : Nat) (inputs : List (Bool × Option InputEvent)) (ls : LoopState)
    (hev : ∀ x ∈ inputs, x.2 = some ok_press) (hrun : ls.running = true)
    (hsel : ls.state.selected = DTMFVolumeUp) :
    run fuel ls inputs =
      some { ls with state := { ls.state with volume := volume_up^[inputs.length] ls.state.volume } } := by
  induction inputs generalizing ls with
  | nil => rfl
  | cons x rest ih =>
    obtain ⟨acq, msg⟩ := x
    have hmsg : msg = some ok_press := hev (acq, msg) (List.mem_cons_self _ _)
    subst hmsg
    rw [run, if_pos hrun, loop_body_ok_press_up fuel acq ls hsel, Option.some_bind,
      ih { ls with state := { ls.state with volume := volume_up ls.state.volume } }
        (fun x hx => hev x (List.mem_cons_of_mem _ hx)) hrun hsel]
    rfl

theorem run_ok_press_down (fuel : Nat) (inputs : List (Bool × Option InputEvent)) (ls : LoopState)
    (hev : ∀ x ∈ inputs, x.2 = some ok_press) (hrun : ls.running = true)
    (hsel : ls.state.selected = DTMFVolumeDown) :
    run fuel ls inputs =
      some { ls with state :=
        { ls.state with volume := volume_down^[inputs.length] ls.state.volume } } := by
  induction inputs generalizing ls with
  | nil => rfl
  | cons x rest ih =>
    obtain ⟨acq, msg⟩ := x
    have hmsg : msg = some ok_press := hev (acq, msg) (List.mem_cons_self _ _)
    subst hmsg
    rw [run, if_pos hrun, loop_body_ok_press_down fuel acq ls hsel, Option.some_bind,
      ih { ls with state := { ls.state with volume := volume_down ls.state.volume } }
        (fun x hx => hev x (List.mem_cons_of_mem _ hx)) hrun hsel]
    rfl

theorem volume_up_iterate (n : Nat) (v : Int) (h10 : v ≤ 10) :
    volume_up^[n] v = min (v + n) 10 := by
  induction n generalizing v with
  | zero => simp [h10]
  | succ n ih =>
    rw [Function.iterate_succ_apply]
    by_cases hv : v < 10
    · have hstep : volume_up v = v + 1 := by simp [volume_up, hv]
      rw [hstep, ih (v + 1) (by omega)]
      push_cast
      omega
    · have hstep : volume_up v = v := by simp [volume_up, hv]
      rw [hstep, ih v h10]
      push_cast
      omega

theorem volume_down_iterate (n : Nat) (v : Int) (h0 : 0 ≤ v) :
    volume_down^[n] v = max (v - n) 0 := by
  induction n generalizing v with
  | zero => simp [h0]
  | succ n ih =>
    rw [Function.iterate_succ_apply]
    by_cases hv : v > 0
    · have hstep : volume_down v = v - 1 := by simp [volume_down, hv]
      rw [hstep, ih (v - 1) (by omega)]
      push_cast
      omega
    · have hstep : volume_down v = v := by simp [volume_down, hv]
      rw [hstep, ih v h0]
      push_cast
      omega

theorem volume_up_twenty (v : Int) (h0 : 0 ≤ v) (h10 : v ≤ 10) : volume_up^[20] v = 10 := by
  rw [volume_up_iterate 20 v h10]
  push_cast
  omega

theorem volume_down_twenty (v : Int) (h0 : 0 ≤ v) (h10 : v ≤ 10) : volume_down^[20] v = 0 := by
  rw [volume_down_iterate 20 v h0]
  push_cast
  omega

theorem startup_invariant : loop_invariant startup := by
  refine ⟨by decide, by decide, by decide, ?_⟩
  intro k hk
  cases hk

theorem move_selected_frame (fuel : Nat) (state s : DTMFState) (key : InputKey)
    (h : move_selected fuel state key = some s) :
    s.playing = state.playing ∧ s.volume = state.volume ∧ s.tone = state.tone := by
  induction fuel generalizing state with
  | zero =>
    rw [move_selected_unfold, scan_cells_eq] at h
    split_ifs at h
    cases h
    exact ⟨rfl, rfl, rfl⟩
  | succ n ih =>
    rw [move_selected_unfold, scan_cells_eq] at h
    split_ifs at h
    · simp only at h
      obtain ⟨h1, h2, h3⟩ := ih _ h
      exact ⟨h1, h2, h3⟩
    · cases h
      exact ⟨rfl, rfl, rfl⟩

theorem loop_body_cases (fuel : Nat) (acq : Bool) (ev : InputEvent) (ls ls1 : LoopState)
    (h : loop_body fuel acq (some ev) ls = some ls1) :
    (ev.type = InputTypePress ∧ is_direction ev.key ∧
        ∃ s, move_selected fuel ls.state ev.key = some s ∧ ls1 = { ls with state := s }) ∨
      (ev.type = InputTypePress ∧ ev.key = InputKeyOk ∧ on_press fuel InputKeyOk ls = some ls1) ∨
      (ev.type = InputTypePress ∧ ev.key = InputKeyBack ∧ ls1 = { ls with running := false }) ∨
      (ev.type = InputTypeRelease ∧ ls1 = on_release ev.key ls) ∨
      (ev.type = InputTypeLong ∧ on_long acq ev.key ls = some ls1) ∨
      ((ev.type = InputTypeShort ∨ ev.type = InputTypeRepeat) ∧ ls1 = ls) := by
  obtain ⟨key, type⟩ := ev
  cases type
  · -- press
    have h1 : on_press fuel key ls = some ls1 := by
      simpa [loop_body, handle_event] using h
    cases key
    case InputKeyOk => exact Or.inr (Or.inl ⟨rfl, rfl, h1⟩)
    case InputKeyBack =>
      refine Or.inr (Or.inr (Or.inl ⟨rfl, rfl, ?_⟩))
      simp only [on_press, Option.some.injEq] at h1
      exact h1.symm
    all_goals
      refine Or.inl ⟨rfl, by decide, ?_⟩
      simp only [on_press, Option.map_eq_some'] at h1
      obtain ⟨s, hs, hls⟩ := h1
      exact ⟨s, hs, hls.symm⟩
  · refine Or.inr (Or.inr (Or.inr (Or.inl ⟨rfl, ?_⟩)))
    simp only [loop_body, handle_event, reduceCtorEq, if_false, if_true, Option.some_bind,
      Option.some.injEq] at h
    exact h.symm
  · refine Or.inr (Or.inr (Or.inr (Or.inr (Or.inr ⟨Or.inl rfl, ?_⟩))))
    simp only [loop_body, handle_event, reduceCtorEq, if_false, Option.some_bind,
      Option.some.injEq] at h
    exact h.symm
  · refine Or.inr (Or.inr (Or.inr (Or.inr (Or.inl ⟨rfl, ?_⟩))))
    simpa [loop_body, handle_event] using h
  · refine Or.inr (Or.inr (Or.inr (Or.inr (Or.inr ⟨Or.inr rfl, ?_⟩))))
    simp only [loop_body, handle_event, reduceCtorEq, if_false, Option.some_bind,
      Option.some.injEq] at h
    exact h.symm

theorem on_press_ok_frame (fuel : Nat) (ls ls1 : LoopState)
    (h : on_press fuel InputKeyOk ls = some ls1) :
    ls1.speaker = ls.speaker ∧ ls1.running = ls.running ∧
      ls1.state.playing = ls.state.playing ∧ ls1.state.selected = ls.state.selected := by
  simp only [on_press] at h
  split_ifs at h <;> cases h <;> exact ⟨rfl, rfl, rfl, rfl⟩

theorem on_release_frame (key : InputKey) (ls : LoopState) :
    (on_release key ls).running = ls.running ∧
      (on_release key ls).state.selected = ls.state.selected := by
  cases key <;> simp only [on_release] <;> (try split_ifs) <;> simp

theorem on_long_frame (acq : Bool) (key : InputKey) (ls ls1 : LoopState)
    (h : on_long acq key ls = some ls1) :
    ls1.running = ls.running ∧ ls1.state.selected = ls.state.selected := by
  cases key <;> simp only [on_long, Option.some.injEq] at h <;>
    try (subst h; exact ⟨rfl, rfl⟩)
  split_ifs at h
  · simp only [Option.map_eq_some'] at h
    obtain ⟨spk, _, hls⟩ := h
    subst hls
    exact ⟨rfl, rfl⟩
  · cases h
    exact ⟨rfl, rfl⟩

theorem loop_body_selected (fuel : Nat) (acq : Bool) (ev : InputEvent) (ls ls1 : LoopState)
    (h : loop_body fuel acq (some ev) ls = some ls1)
    (hev : ¬(ev.type = InputTypePress ∧ is_direction ev.key)) :
    ls1.state.selected = ls.state.selected := by
  rcases loop_body_cases fuel acq ev ls ls1 h with
    ⟨ht, hd, _⟩ | ⟨_, _, h1⟩ | ⟨_, _, h1⟩ | ⟨_, h1⟩ | ⟨_, h1⟩ | ⟨_, h1⟩
  · exact absurd ⟨ht, hd⟩ hev
  · exact (on_press_ok_frame fuel ls ls1 h1).2.2.2
  · rw [h1]
  · rw [h1]; exact (on_release_frame ev.key ls).2
  · exact (on_long_frame acq ev.key ls ls1 h1).2
  · rw [h1]

theorem loop_body_running (fuel : Nat) (acq : Bool) (ev : InputEvent) (ls ls1 : LoopState)
    (h : loop_body fuel acq (some ev) ls = some ls1) :
    (ev.type = InputTypePress ∧ ¬is_direction ev.key ∧ ev.key ≠ InputKeyOk →
        ls1.running = false) ∧
      (¬(ev.type = InputTypePress ∧ ¬is_direction ev.key ∧ ev.key ≠ InputKeyOk) →
        ls1.running = ls.running) := by
  rcases loop_body_cases fuel acq ev ls ls1 h with
    ⟨_, hd, s, _, h1⟩ | ⟨_, hk, h1⟩ | ⟨ht, hk, h1⟩ | ⟨ht, h1⟩ | ⟨ht, h1⟩ | ⟨ht, h1⟩
  · exact ⟨fun hc => absurd hd hc.2.1, fun _ => by rw [h1]⟩
  · exact ⟨fun hc => absurd hk hc.2.2, fun _ => (on_press_ok_frame fuel ls ls1 h1).2.1⟩
  · refine ⟨fun _ => by rw [h1], fun hc => absurd ⟨ht, ?_, ?_⟩ hc⟩
    · rw [hk]; decide
    · rw [hk]; decide
  · refine ⟨fun hc => ?_, fun _ => by rw [h1]; exact (on_release_frame ev.key ls).1⟩
    rw [ht] at hc
    exact absurd hc.1 (by decide)
  · refine ⟨fun hc => ?_, fun _ => (on_long_frame acq ev.key ls ls1 h1).1⟩
    rw [ht] at hc
    exact absurd hc.1 (by decide)
  · refine ⟨fun hc => ?_, fun _ => by rw [h1]⟩
    rcases ht with ht | ht <;> rw [ht] at hc <;> exact absurd hc.1 (by decide)

theorem loop_body_returns (fuel : Nat) (acq : Bool) (msg : Option InputEvent) (ls : LoopState)
    (htone : ∀ k, ls.state.tone = some k → k < 16)
    (hfuel : 0 < fuel ∨ ∀ ev, msg = some ev → ¬(ev.type = InputTypePress ∧ is_direction ev.key)) :
    ∃ ls1, loop_body fuel acq msg ls = some ls1 := by
  cases msg with
  | none => exact ⟨ls, rfl⟩
  | some event =>
    obtain ⟨key, type⟩ := event
    cases type
    · -- press
      cases key
      case InputKeyOk =>
        simp only [loop_body, handle_event, on_press, if_true, reduceCtorEq, if_false]
        split_ifs <;> exact ⟨_, rfl⟩
      case InputKeyBack => exact ⟨{ ls with running := false }, rfl⟩
      all_goals
        rcases hfuel with hf | hf
        · obtain ⟨n, rfl⟩ := Nat.exists_eq_succ_of_ne_zero (Nat.pos_iff_ne_zero.mp hf)
          simp only [loop_body, handle_event, on_press, if_true, reduceCtorEq, if_false]
          rw [move_selected_hop n ls.state _ (by decide)]
          exact ⟨_, rfl⟩
        · exact absurd ⟨rfl, by decide⟩ (hf _ rfl)
    · exact ⟨on_release key ls, rfl⟩
    · exact ⟨ls, rfl⟩
    · -- long
      cases key
      case InputKeyOk =>
        simp only [loop_body, handle_event, on_long, if_true, reduceCtorEq, if_false,
          Option.some_bind]
        split
        · obtain ⟨spk1, hs⟩ := sound_on_some acq { ls.state with playing := true } ls.speaker htone
          rw [hs]
          exact ⟨_, rfl⟩
        · exact ⟨_, rfl⟩
      all_goals exact ⟨ls, rfl⟩
    · exact ⟨ls, rfl⟩

theorem sound_off_released (spk : Speaker) (h : spk.sounding ≠ none → spk.mine = true) :
    (sound_off spk).mine = false ∧ (sound_off spk).sounding = none := by
  obtain ⟨mine, snd, calls⟩ := spk
  cases mine
  · simp only [sound_off, furi_hal_speaker_is_mine, Bool.false_eq_true, if_false, true_and]
    by_contra hne
    exact absurd (h hne) (by simp)
  · exact ⟨rfl, rfl⟩

theorem sound_on_driving (acq : Bool) (state : DTMFState) (spk spk1 : Speaker)
    (h : sound_on acq state spk = some spk1) (hinv : spk.sounding ≠ none → spk.mine = true) :
    spk1.sounding ≠ none → spk1.mine = true := by
  obtain ⟨mine, snd, calls⟩ := spk
  unfold sound_on at h
  cases ht : state.tone with
  | none =>
    simp only [ht, Option.some.injEq] at h
    subst h
    exact hinv
  | some k =>
    simp only [ht, furi_hal_speaker_is_mine, furi_hal_speaker_acquire] at h
    cases mine <;> cases acq <;> simp only [Bool.false_eq_true, if_false, if_true] at h
    · cases h
      exact hinv
    all_goals
      cases hk : tones.get? k with
      | none =>
        rw [hk] at h
        cases h
      | some t =>
        rw [hk] at h
        simp only [Option.some.injEq] at h
        subst h
        intro _
        rfl

theorem loop_body_speaker_invariant (fuel : Nat) (acq : Bool) (msg : Option InputEvent)
    (ls ls1 : LoopState) (h : loop_body fuel acq msg ls = some ls1)
    (hinv : speaker_invariant ls) : speaker_invariant ls1 := by
  cases msg with
  | none =>
    simp only [loop_body, Option.some.injEq] at h
    rw [← h]
    exact hinv
  | some ev =>
    rcases loop_body_cases fuel acq ev ls ls1 h with
      ⟨_, _, s, hs, h1⟩ | ⟨_, _, h1⟩ | ⟨_, _, h1⟩ | ⟨_, h1⟩ | ⟨_, h1⟩ | ⟨_, h1⟩
    · subst h1
      obtain ⟨hp, _, _⟩ := move_selected_frame fuel ls.state s ev.key hs
      exact ⟨fun hm => by show s.playing = true; rw [hp]; exact hinv.1 hm, hinv.2⟩
    · obtain ⟨hspk, _, hp, _⟩ := on_press_ok_frame fuel ls ls1 h1
      unfold speaker_invariant
      rw [hspk, hp]
      exact hinv
    · subst h1
      exact hinv
    · subst h1
      cases hkey : ev.key <;> simp only [on_release] <;> try exact hinv
      split_ifs
      · obtain ⟨hm, hs⟩ := sound_off_released ls.speaker hinv.2
        exact ⟨fun hc => absurd (hm.symm.trans hc) (by decide), fun hc => absurd hs hc⟩
      · exact hinv
    · cases hkey : ev.key <;> rw [hkey] at h1 <;>
        simp only [on_long, Option.some.injEq] at h1 <;> try (subst h1; exact hinv)
      split_ifs at h1
      · simp only [Option.map_eq_some'] at h1
        obtain ⟨spk, hspk, hls⟩ := h1
        subst hls
        exact ⟨fun _ => rfl, sound_on_driving acq _ ls.speaker spk hspk hinv.2⟩
      · cases h1
        exact hinv
    · subst h1
      exact hinv

theorem run_speaker_invariant (fuel : Nat) (inputs : List (Bool × Option InputEvent))
    (ls ls1 : LoopState) (h : run fuel ls inputs = some ls1) (hinv : speaker_invariant ls) :
    speaker_invariant ls1 := by
  induction inputs generalizing ls with
  | nil =>
    simp only [run, Option.some.injEq] at h
    rw [← h]
    exact hinv
  | cons x rest ih =>
    obtain ⟨acq, msg⟩ := x
    rw [run] at h
    split_ifs at h
    · cases hb : loop_body fuel acq msg ls with
      | none => simp [hb] at h
      | some ls2 =>
        rw [hb, Option.some_bind] at h
        exact ih ls2 h (loop_body_speaker_invariant fuel acq msg ls ls2 hb hinv)
    · cases h
      exact hinv

theorem startup_speaker_invariant : speaker_invariant startup := by
  constructor
  · intro h
    exact absurd h (by decide)
  · intro h
    exact absurd rfl h

theorem int_to_float_hundred : int_to_float 100 = 100 := by decide

theorem float_model_samples :
    int_to_float 1633 = 1633 ∧ int_to_float 16777217 = 16777216 ∧
      int_to_float 16777219 = 16777220 ∧ int_to_float (-16777219) = -16777220 ∧
      int_to_float 2147483647 = 2147483648 ∧
      binary32_quotient 1 3 = (11184811, 33554432) ∧
      binary32_quotient 5 100 = (13421773, 268435456) ∧
      binary32_quotient 2147483648 1 = (2147483648, 1) := by
  decide

theorem amplitude_at_ten :
    float_div (int_to_float 10) (int_to_float 100) = (13421773 : ℚ) / (134217728 : ℚ) := by
  have h10 : int_to_float 10 = 10 := by decide
  have hr : binary32_quotient 10 100 = (13421773, 134217728) := by decide
  rw [h10, int_to_float_hundred]
  simp [float_div, hr]

theorem amplitude_bounds (v : Int) (h0 : 0 ≤ v) (h10 : v ≤ 10) :
    0 ≤ float_div (int_to_float v) (int_to_float 100) ∧
      float_div (int_to_float v) (int_to_float 100) ≤ 13421773 / 134217728 ∧
      |float_div (int_to_float v) (int_to_float 100) - (v : ℚ) / 100| ≤ 1 / 2 ^ 28 := by
  have e1 : binary32_quotient 1 100 = (10737418, 1073741824) := by decide
  have e2 : binary32_quotient 2 100 = (10737418, 536870912) := by decide
  have e3 : binary32_quotient 3 100 = (16106127, 536870912) := by decide
  have e4 : binary32_quotient 4 100 = (10737418, 268435456) := by decide
  have e5 : binary32_quotient 5 100 = (13421773, 268435456) := by decide
  have e6 : binary32_quotient 6 100 = (16106127, 268435456) := by decide
  have e7 : binary32_quotient 7 100 = (9395241, 134217728) := by decide
  have e8 : binary32_quotient 8 100 = (10737418, 134217728) := by decide
  have e9 : binary32_quotient 9 100 = (12079596, 134217728) := by decide
  have e10 : binary32_quotient 10 100 = (13421773, 134217728) := by decide
  rw [int_to_float_hundred]
  interval_cases v
  · norm_num [float_div, show int_to_float 0 = 0 by decide]
  · norm_num [float_div, show int_to_float 1 = 1 by decide, e1, abs_le]
  · norm_num [float_div, show int_to_float 2 = 2 by decide, e2, abs_le]
  · norm_num [float_div, show int_to_float 3 = 3 by decide, e3, abs_le]
  · norm_num [float_div, show int_to_float 4 = 4 by decide, e4, abs_le]
  · norm_num [float_div, show int_to_float 5 = 5 by decide, e5, abs_le]
  · norm_num [float_div, show int_to_float 6 = 6 by decide, e6, abs_le]
  · norm_num [float_div, show int_to_float 7 = 7 by decide, e7, abs_le]
  · norm_num [float_div, show int_to_float 8 = 8 by decide, e8, abs_le]
  · norm_num [float_div, show int_to_float 9 = 9 by decide, e9, abs_le]
  · norm_num [float_div, show int_to_float 10 = 10 by decide, e10, abs_le]

/-! ## Navigation theorems -/

/-- C1: from a non-Invalid cell at position `c`, a directional `move_selected`
selects the identifier of the wrap-around neighbour of `c`, unless that identifier
is `DTMFToneInvalid`, in which case it selects the identifier one further step in
the same direction from the Invalid position; from `DTMFTone1` four successive
Right moves give `DTMFTone2`, `DTMFTone3`, `DTMFToneA`, `DTMFTone1`. -/
theorem move_selected_neighbour_or_skip (fuel : Nat) (state : DTMFState) (c : Fin 4 × Fin 5)
    (key : InputKey) (hcell : cell_id c = state.selected)
    (hvalid : state.selected ≠ DTMFToneInvalid) (hdir : is_direction key) :
    move_selected (fuel + 1) state key =
        some { state with selected := neighbour_or_skip key c } ∧
      (∀ (p : Bool) (v : Int) (t : Option Nat),
        move_selected (fuel + 1) ⟨p, v, t, DTMFTone1⟩ InputKeyRight = some ⟨p, v, t, DTMFTone2⟩ ∧
        move_selected (fuel + 1) ⟨p, v, t, DTMFTone2⟩ InputKeyRight = some ⟨p, v, t, DTMFTone3⟩ ∧
        move_selected (fuel + 1) ⟨p, v, t, DTMFTone3⟩ InputKeyRight = some ⟨p, v, t, DTMFToneA⟩ ∧
        move_selected (fuel + 1) ⟨p, v, t, DTMFToneA⟩ InputKeyRight = some ⟨p, v, t, DTMFTone1⟩) := by
  refine ⟨?_, ?_⟩
  · rw [move_selected_hop fuel state key hdir, ← hcell,
      hop_neighbour key c hdir (by rw [hcell]; exact hvalid)]
  · intro p v t
    have hr : is_direction InputKeyRight := by decide
    simp only [move_selected_hop fuel _ InputKeyRight hr]
    refine ⟨?_, ?_, ?_, ?_⟩ <;> rfl

/-- C1 instance: `DTMFToneA` at row 0, column 3, moved Right across the Invalid cell. -/
theorem move_selected_neighbour_or_skip_witness :
    cell_id (0, 3) = (⟨false, 5, none, DTMFToneA⟩ : DTMFState).selected ∧
      (⟨false, 5, none, DTMFToneA⟩ : DTMFState).selected ≠ DTMFToneInvalid ∧
      is_direction InputKeyRight ∧
      move_selected 1 ⟨false, 5, none, DTMFToneA⟩ InputKeyRight = some ⟨false, 5, none, DTMFTone1⟩ :=
  ⟨by decide, by decide, by decide,
    (move_selected_neighbour_or_skip 0 ⟨false, 5, none, DTMFToneA⟩ (0, 3) InputKeyRight
      (by decide) (by decide) (by decide)).1⟩

/-- C2: for a selected cell other than `DTMFToneInvalid` and a directional key,
`move_selected` returns and the selection it leaves is not `DTMFToneInvalid`. -/
theorem move_selected_never_invalid (fuel : Nat) (state : DTMFState) (key : InputKey)
    (_hvalid : state.selected ≠ DTMFToneInvalid) (hdir : is_direction key) :
    ∃ s, move_selected (fuel + 1) state key = some s ∧ s.selected ≠ DTMFToneInvalid :=
  ⟨{ state with selected := hop state.selected key }, move_selected_hop fuel state key hdir,
    hop_valid state.selected key hdir⟩

/-- C2 instance: `DTMFPlayStop` moved Up, across the Invalid cell. -/
theorem move_selected_never_invalid_witness :
    (⟨true, 7, some 3, DTMFPlayStop⟩ : DTMFState).selected ≠ DTMFToneInvalid ∧
      is_direction InputKeyUp ∧
      ∃ s, move_selected 1 ⟨true, 7, some 3, DTMFPlayStop⟩ InputKeyUp = some s ∧
        s.selected ≠ DTMFToneInvalid :=
  ⟨by decide, by decide,
    move_selected_never_invalid 0 ⟨true, 7, some 3, DTMFPlayStop⟩ InputKeyUp
      (by decide) (by decide)⟩

/-- C3 as stated fails: five Right moves (the number of columns) from `DTMFTone1`
end on `DTMFTone2`, and four Up moves (the number of rows) from `DTMFPlayStop` end
on `DTMFVolumeDown`. -/
theorem grid_dimension_moves_counterexample :
    (move_times 1 (grid_dimension InputKeyRight) ⟨false, 5, none, DTMFTone1⟩ InputKeyRight =
        some ⟨false, 5, none, DTMFTone2⟩ ∧
      move_times 1 (grid_dimension InputKeyRight) ⟨false, 5, none, DTMFTone1⟩ InputKeyRight ≠
        some ⟨false, 5, none, DTMFTone1⟩) ∧
    (move_times 1 (grid_dimension InputKeyUp) ⟨false, 5, none, DTMFPlayStop⟩ InputKeyUp =
        some ⟨false, 5, none, DTMFVolumeDown⟩ ∧
      move_times 1 (grid_dimension InputKeyUp) ⟨false, 5, none, DTMFPlayStop⟩ InputKeyUp ≠
        some ⟨false, 5, none, DTMFPlayStop⟩) := by
  decide

/-- C3 amended: from a non-Invalid cell at position `c`, `cycle_length key c`
successive directional moves return the selection to the starting cell; that number
is the grid dimension along the axis (4 for Up or Down, 5 for Left or Right) when
the Invalid cell is not on the line walked, and one less on the line through the
Invalid cell (4 Left or Right moves in row 0, 3 Up or Down moves in column 4). -/
theorem move_selected_cycle (fuel : Nat) (state : DTMFState) (c : Fin 4 × Fin 5)
    (key : InputKey) (hcell : cell_id c = state.selected)
    (hvalid : state.selected ≠ DTMFToneInvalid) (hdir : is_direction key) :
    move_times (fuel + 1) (cycle_length key c) state key = some state ∧
      cycle_length key c =
        grid_dimension key -
          (if (cell_id (c.1, 4) = DTMFToneInvalid ∧ (key = InputKeyLeft ∨ key = InputKeyRight)) ∨
              (cell_id (0, c.2) = DTMFToneInvalid ∧ (key = InputKeyUp ∨ key = InputKeyDown))
            then 1 else 0) := by
  refine ⟨?_, cycle_length_eq key c hdir⟩
  rw [move_times_hop fuel _ state key hdir, ← hcell,
    hop_cycle key c hdir (by rw [hcell]; exact hvalid), hcell]

/-- C3 instance: `DTMFToneB` (row 1, column 3) moved Left five times, and
`DTMFTone3` (row 0, column 2) moved Left four times. -/
theorem move_selected_cycle_witness :
    (cell_id (1, 3) = (⟨false, 5, none, DTMFToneB⟩ : DTMFState).selected ∧
      (⟨false, 5, none, DTMFToneB⟩ : DTMFState).selected ≠ DTMFToneInvalid ∧
      is_direction InputKeyLeft ∧
      move_times 1 5 ⟨false, 5, none, DTMFToneB⟩ InputKeyLeft =
        some ⟨false, 5, none, DTMFToneB⟩) ∧
    move_times 1 4 ⟨false, 5, none, DTMFTone3⟩ InputKeyLeft = some ⟨false, 5, none, DTMFTone3⟩ :=
  ⟨⟨by decide, by decide, by decide,
    (move_selected_cycle 0 ⟨false, 5, none, DTMFToneB⟩ (1, 3) InputKeyLeft
      (by decide) (by decide) (by decide)).1⟩,
    (move_selected_cycle 0 ⟨false, 5, none, DTMFTone3⟩ (0, 2) InputKeyLeft
      (by decide) (by decide) (by decide)).1⟩

/-- C4: for a non-Invalid selected cell and a directional key the recursion of
`move_selected` terminates with at most one recursive re-invocation: a budget of
one re-invocation yields a result, any larger budget yields the same result, no
re-invocation at all is needed exactly when the first step does not land on
`DTMFToneInvalid`, and the step made by the re-invocation lands on a valid cell. -/
theorem move_selected_terminates (state : DTMFState) (key : InputKey)
    (_hvalid : state.selected ≠ DTMFToneInvalid) (hdir : is_direction key) :
    (∃ s, move_selected 1 state key = some s) ∧
      (∀ fuel, move_selected (fuel + 1) state key = move_selected 1 state key) ∧
      (move_selected 0 state key = none ↔
        (scan_cells state key scan_order).selected = DTMFToneInvalid) ∧
      ((scan_cells state key scan_order).selected = DTMFToneInvalid →
        (scan_cells (scan_cells state key scan_order) key scan_order).selected ≠
          DTMFToneInvalid) := by
  refine ⟨⟨_, move_selected_hop 0 state key hdir⟩, ?_, ?_, ?_⟩
  · intro fuel
    rw [move_selected_hop fuel state key hdir, move_selected_hop 0 state key hdir]
  · rw [move_selected_unfold]
    by_cases h : (scan_cells state key scan_order).selected = DTMFToneInvalid <;> simp [h]
  · intro h
    rw [scan_cells_eq (scan_cells state key scan_order) key, h]
    exact scan_sel_invalid key hdir

/-- C4 instance: `DTMFVolumeDown` moved Down, whose first step lands on Invalid. -/
theorem move_selected_terminates_witness :
    (⟨false, 5, none, DTMFVolumeDown⟩ : DTMFState).selected ≠ DTMFToneInvalid ∧
      is_direction InputKeyDown ∧
      move_selected 0 ⟨false, 5, none, DTMFVolumeDown⟩ InputKeyDown = none ∧
      move_selected 1 ⟨false, 5, none, DTMFVolumeDown⟩ InputKeyDown =
        some ⟨false, 5, none, DTMFPlayStop⟩ ∧
      ∃ s, move_selected 1 ⟨false, 5, none, DTMFVolumeDown⟩ InputKeyDown = some s :=
  ⟨by decide, by decide, by decide, by decide,
    (move_selected_terminates ⟨false, 5, none, DTMFVolumeDown⟩ InputKeyDown
      (by decide) (by decide)).1⟩


/-! ## Event-loop theorems -/

/-- C5: in every state reached from the startup state by a finite sequence of loop
iterations (any key, any kind of event, or a queue timeout, with any outcome of the
speaker acquisition), the loop body has returned, `0 ≤ volume ≤ 10` and `selected`
is not `DTMFToneInvalid`. -/
theorem reachable_volume_and_selection (fuel : Nat) (inputs : List (Bool × Option InputEvent)) :
    ∃ ls, run (fuel + 1) startup inputs = some ls ∧
      0 ≤ ls.state.volume ∧ ls.state.volume ≤ 10 ∧ ls.state.selected ≠ DTMFToneInvalid := by
  obtain ⟨ls, hrun, hv0, hv10, hsel, _⟩ := run_invariant fuel inputs startup startup_invariant
  exact ⟨ls, hrun, hv0, hv10, hsel⟩

/-- C6: from any volume in 0..10, twenty consecutive OK Press events processed
while `selected = DTMFVolumeUp` leave `volume = 10`, and twenty processed while
`selected = DTMFVolumeDown` leave `volume = 0`; nothing else in the loop state
changes. -/
theorem volume_saturates (fuel : Nat) (ls : LoopState) (inputs : List (Bool × Option InputEvent))
    (hlen : inputs.length = 20) (hev : ∀ x ∈ inputs, x.2 = some ok_press)
    (hrun : ls.running = true) (hv0 : 0 ≤ ls.state.volume) (hv10 : ls.state.volume ≤ 10) :
    (ls.state.selected = DTMFVolumeUp →
        run fuel ls inputs = some { ls with state := { ls.state with volume := 10 } }) ∧
      (ls.state.selected = DTMFVolumeDown →
        run fuel ls inputs = some { ls with state := { ls.state with volume := 0 } }) := by
  constructor
  · intro hsel
    rw [run_ok_press_up fuel inputs ls hev hrun hsel, hlen, volume_up_twenty _ hv0 hv10]
  · intro hsel
    rw [run_ok_press_down fuel inputs ls hev hrun hsel, hlen, volume_down_twenty _ hv0 hv10]

/-- C6 instance: twenty OK presses on `DTMFVolumeUp` starting from volume 3. -/
theorem volume_saturates_witness :
    (List.replicate 20 (false, some ok_press)).length = 20 ∧
      (∀ x ∈ List.replicate 20 (false, some ok_press), x.2 = some ok_press) ∧
      (0 : Int) ≤ 3 ∧ (3 : Int) ≤ 10 ∧
      run 0 ⟨⟨false, 3, none, DTMFVolumeUp⟩, ⟨false, none, []⟩, true⟩
          (List.replicate 20 (false, some ok_press)) =
        some ⟨⟨false, 10, none, DTMFVolumeUp⟩, ⟨false, none, []⟩, true⟩ :=
  ⟨by decide, by decide, by decide, by decide,
    (volume_saturates 0 ⟨⟨false, 3, none, DTMFVolumeUp⟩, ⟨false, none, []⟩, true⟩
      (List.replicate 20 (false, some ok_press)) (by decide) (by decide) rfl
      (by decide) (by decide)).1 rfl⟩

/-- C7: with `selected = DTMFVolumeUp` an OK Press event changes only the volume
field (to `volume + 1` below 10, unchanged otherwise): `playing`, `selected`, the
active tone, the running flag and the speaker are unchanged, and the list of issued
speaker calls is unchanged, so no start, stop, acquire or release is issued; three
consecutive OK presses starting from volume 5 leave volume 8. -/
theorem ok_press_volume_up_frame (fuel : Nat) (acq : Bool) (ls : LoopState)
    (hsel : ls.state.selected = DTMFVolumeUp) :
    (∃ ls1, loop_body fuel acq (some ok_press) ls = some ls1 ∧
        ls1.state.volume = (if ls.state.volume < 10 then ls.state.volume + 1 else ls.state.volume) ∧
        ls1.state.playing = ls.state.playing ∧ ls1.state.selected = ls.state.selected ∧
        ls1.state.tone = ls.state.tone ∧ ls1.running = ls.running ∧
        ls1.speaker.mine = ls.speaker.mine ∧ ls1.speaker.sounding = ls.speaker.sounding ∧
        ls1.speaker.calls = ls.speaker.calls) ∧
      (ls.state.volume = 5 → ls.running = true → ∀ a1 a2 a3 : Bool,
        run fuel ls [(a1, some ok_press), (a2, some ok_press), (a3, some ok_press)] =
          some { ls with state := { ls.state with volume := 8 } }) := by
  constructor
  · rw [loop_body_ok_press_up fuel acq ls hsel]
    exact ⟨_, rfl, rfl, rfl, rfl, rfl, rfl, rfl, rfl, rfl⟩
  · intro hv hrun a1 a2 a3
    rw [run_ok_press_up fuel _ ls (by simp) hrun hsel, hv]
    rfl

/-- C7 instance: the startup state with the selection on `DTMFVolumeUp`. -/
theorem ok_press_volume_up_frame_witness :
    (⟨⟨false, 5, none, DTMFVolumeUp⟩, ⟨false, none, []⟩, true⟩ : LoopState).state.selected =
        DTMFVolumeUp ∧
      run 0 ⟨⟨false, 5, none, DTMFVolumeUp⟩, ⟨false, none, []⟩, true⟩
          [(true, some ok_press), (true, some ok_press), (true, some ok_press)] =
        some ⟨⟨false, 8, none, DTMFVolumeUp⟩, ⟨false, none, []⟩, true⟩ :=
  ⟨rfl, (ok_press_volume_up_frame 0 true
    ⟨⟨false, 5, none, DTMFVolumeUp⟩, ⟨false, none, []⟩, true⟩ rfl).2 rfl rfl true true true⟩

/-- C8 as stated fails in three ways.  With `selected = DTMFPlayStop` and no tone
chosen yet (`tone = NULL`, as in the startup state) an OK Long event sets
`playing = true` but issues no speaker call at all, although the speaker could be
acquired.  With a tone chosen but the speaker not acquirable, the only call issued
is the failed acquire, so no start is invoked either.  And when the start is
invoked at volume 10, the amplitude passed is the float `13421773 / 2 ^ 27`, which
is not `10 / 100` and is larger than `1 / 10`. -/
theorem ok_long_without_start_counterexample :
    loop_body 1 true (some ok_long) ⟨⟨false, 5, none, DTMFPlayStop⟩, ⟨false, none, []⟩, true⟩ =
        some ⟨⟨true, 5, none, DTMFPlayStop⟩, ⟨false, none, []⟩, true⟩ ∧
      loop_body 1 false (some ok_long)
          ⟨⟨false, 5, some 0, DTMFPlayStop⟩, ⟨false, none, []⟩, true⟩ =
        some ⟨⟨true, 5, some 0, DTMFPlayStop⟩, ⟨false, none, [SpeakerCall.acquire 30]⟩, true⟩ ∧
      (loop_body 1 true (some ok_long)
          ⟨⟨false, 10, some 0, DTMFPlayStop⟩, ⟨false, none, []⟩, true⟩ =
        some ⟨⟨true, 10, some 0, DTMFPlayStop⟩,
          ⟨true, some (1209, 13421773 / 134217728),
            [SpeakerCall.acquire 30, SpeakerCall.start 1209 (13421773 / 134217728)]⟩, true⟩ ∧
        (13421773 / 134217728 : ℚ) ≠ ((10 : Int) : ℚ) / 100 ∧
        (1 / 10 : ℚ) < 13421773 / 134217728) := by
  refine ⟨rfl, rfl, ?_, by norm_num, by norm_num⟩
  rw [← amplitude_at_ten]
  rfl

/-- C8 amended: with `selected = DTMFPlayStop`, a tone chosen (`tone = &tones[k]`
with entry `t`) and the speaker either already owned or acquirable, an OK Long
event sets `playing = true` and invokes the speaker start with frequency `t.high`
and amplitude the float quotient `(float)volume / (float)100` (for a volume in
0..10 that float is within `2 ^ -28` of `volume / 100` and at most
`13421773 / 2 ^ 27`), after which the program owns the speaker and that tone
sounds; a following OK Release event sets `playing = false` and invokes the speaker
stop (then release), after which nothing sounds and the speaker is no longer
owned. -/
theorem ok_long_then_release (fuel : Nat) (acq acq2 : Bool) (ls : LoopState) (k : Nat)
    (t : DTMFTone) (hsel : ls.state.selected = DTMFPlayStop) (htone : ls.state.tone = some k)
    (hk : tones.get? k = some t) (havail : ls.speaker.mine = true ∨ acq = true) :
    ∃ ls1, loop_body fuel acq (some ok_long) ls = some ls1 ∧
      ls1.state.playing = true ∧
      ls1.speaker.calls =
        ls.speaker.calls ++ (if ls.speaker.mine then [] else [SpeakerCall.acquire 30]) ++
          [SpeakerCall.start t.high (float_div (int_to_float ls.state.volume) (int_to_float 100))] ∧
      ls1.speaker.sounding =
        some (t.high, float_div (int_to_float ls.state.volume) (int_to_float 100)) ∧
      ls1.speaker.mine = true ∧
      (0 ≤ ls.state.volume → ls.state.volume ≤ 10 →
        0 ≤ float_div (int_to_float ls.state.volume) (int_to_float 100) ∧
        float_div (int_to_float ls.state.volume) (int_to_float 100) ≤ 13421773 / 134217728 ∧
        |float_div (int_to_float ls.state.volume) (int_to_float 100) -
            (ls.state.volume : ℚ) / 100| ≤ 1 / 2 ^ 28) ∧
      ∃ ls2, loop_body fuel acq2 (some ok_release) ls1 = some ls2 ∧
        ls2.state.playing = false ∧
        ls2.speaker.calls = ls1.speaker.calls ++ [SpeakerCall.stop, SpeakerCall.release] ∧
        ls2.speaker.sounding = none ∧ ls2.speaker.mine = false := by
  obtain ⟨⟨p, v, tn, sel⟩, ⟨mine, snd, calls⟩, r⟩ := ls
  simp only at hsel htone havail
  subst hsel htone
  have hk1 : tones[k]? = some t := by simpa using hk
  cases mine with
  | true =>
    refine ⟨⟨⟨true, v, some k, DTMFPlayStop⟩,
      ⟨true, some (t.high, float_div (int_to_float v) (int_to_float 100)),
        calls ++ [SpeakerCall.start t.high (float_div (int_to_float v) (int_to_float 100))]⟩,
      r⟩, ?_, rfl, by simp, rfl, rfl, amplitude_bounds v, ?_⟩
    · simp [loop_body, handle_event, on_long, ok_long, sound_on, furi_hal_speaker_is_mine,
        furi_hal_speaker_start, hk1]
    · refine ⟨_, rfl, rfl, ?_, rfl, rfl⟩
      simp [on_release, ok_release, sound_off, furi_hal_speaker_is_mine, furi_hal_speaker_stop,
        furi_hal_speaker_release]
  | false =>
    have hacq : acq = true := by simpa using havail
    subst hacq
    refine ⟨⟨⟨true, v, some k, DTMFPlayStop⟩,
      ⟨true, some (t.high, float_div (int_to_float v) (int_to_float 100)),
        calls ++ [SpeakerCall.acquire 30] ++
          [SpeakerCall.start t.high (float_div (int_to_float v) (int_to_float 100))]⟩,
      r⟩, ?_, rfl, by simp, rfl, rfl, amplitude_bounds v, ?_⟩
    · simp [loop_body, handle_event, on_long, ok_long, sound_on, furi_hal_speaker_is_mine,
        furi_hal_speaker_acquire, furi_hal_speaker_start, hk1]
    · refine ⟨_, rfl, rfl, ?_, rfl, rfl⟩
      simp [on_release, ok_release, sound_off, furi_hal_speaker_is_mine, furi_hal_speaker_stop,
        furi_hal_speaker_release]

/-- C8 instance: tone `5` chosen (`tones[5]`, 1336 Hz), volume 5, speaker free and
acquirable. -/
theorem ok_long_then_release_witness :
    (⟨⟨false, 5, some 5, DTMFPlayStop⟩, ⟨false, none, []⟩, true⟩ : LoopState).state.selected =
        DTMFPlayStop ∧
      tones.get? 5 = some ⟨'5', 770, "770 Hz", 1336, "1336 Hz"⟩ ∧
      ∃ ls1, loop_body 1 true (some ok_long)
          ⟨⟨false, 5, some 5, DTMFPlayStop⟩, ⟨false, none, []⟩, true⟩ = some ls1 ∧
        ls1.state.playing = true ∧
        ls1.speaker.calls =
          [SpeakerCall.acquire 30,
            SpeakerCall.start 1336 (float_div (int_to_float 5) (int_to_float 100))] :=
  ⟨rfl, rfl,
    (ok_long_then_release 1 true false ⟨⟨false, 5, some 5, DTMFPlayStop⟩, ⟨false, none, []⟩, true⟩
      5 ⟨'5', 770, "770 Hz", 1336, "1336 Hz"⟩ rfl rfl rfl (Or.inr rfl)).imp
      (fun _ h => ⟨h.1, h.2.1, h.2.2.1⟩)⟩

/-- C9: with `selected = DTMFPlayStop`, the speaker not owned by the program and
not acquirable, an OK Long event issues no speaker start (the only call that may be
issued is the failed acquire), leaves the ownership and the sounding tone unchanged,
and still sets `playing = true`, changing nothing else in the program state. -/
theorem ok_long_speaker_unavailable (fuel : Nat) (ls : LoopState)
    (hsel : ls.state.selected = DTMFPlayStop) (hmine : ls.speaker.mine = false) :
    ∃ ls1, loop_body fuel false (some ok_long) ls = some ls1 ∧
      ls1.state = { ls.state with playing := true } ∧ ls1.state.playing = true ∧
      ls1.running = ls.running ∧
      ls1.speaker.mine = ls.speaker.mine ∧ ls1.speaker.sounding = ls.speaker.sounding ∧
      ∃ issued, ls1.speaker.calls = ls.speaker.calls ++ issued ∧
        (issued = [] ∨ issued = [SpeakerCall.acquire 30]) ∧
        ∀ f a, SpeakerCall.start f a ∉ issued := by
  obtain ⟨⟨p, v, tn, sel⟩, ⟨mine, snd, calls⟩, r⟩ := ls
  simp only at hsel hmine
  subst hsel hmine
  cases tn with
  | none =>
    exact ⟨⟨⟨true, v, none, DTMFPlayStop⟩, ⟨false, snd, calls⟩, r⟩, rfl, rfl, rfl, rfl, rfl, rfl,
      [], (List.append_nil _).symm, Or.inl rfl, by simp⟩
  | some k =>
    refine ⟨⟨⟨true, v, some k, DTMFPlayStop⟩, ⟨false, snd, calls ++ [SpeakerCall.acquire 30]⟩, r⟩,
      ?_, rfl, rfl, rfl, rfl, rfl, [SpeakerCall.acquire 30], rfl, Or.inr rfl, by simp⟩
    simp [loop_body, handle_event, on_long, ok_long, sound_on, furi_hal_speaker_is_mine,
      furi_hal_speaker_acquire]

/-- C9 instance: tone `1` chosen, the speaker held by someone else. -/
theorem ok_long_speaker_unavailable_witness :
    (⟨⟨false, 5, some 0, DTMFPlayStop⟩, ⟨false, none, []⟩, true⟩ : LoopState).state.selected =
        DTMFPlayStop ∧
      (⟨⟨false, 5, some 0, DTMFPlayStop⟩, ⟨false, none, []⟩, true⟩ : LoopState).speaker.mine =
        false ∧
      ∃ ls1, loop_body 0 false (some ok_long)
          ⟨⟨false, 5, some 0, DTMFPlayStop⟩, ⟨false, none, []⟩, true⟩ = some ls1 ∧
        ls1.state.playing = true ∧ ls1.speaker.sounding = none :=
  ⟨rfl, rfl,
    (ok_long_speaker_unavailable 0 ⟨⟨false, 5, some 0, DTMFPlayStop⟩, ⟨false, none, []⟩, true⟩
      rfl rfl).imp (fun _ h => ⟨h.1, h.2.2.1, h.2.2.2.2.2.1⟩)⟩

/-- C10: `sound_off` changes nothing of the speaker (ownership, sounding tone,
issued calls) when the program does not own it, and on every speaker two calls in a
row leave the same speaker as one call. -/
theorem sound_off_idempotent (spk : Speaker) :
    (spk.mine = false → sound_off spk = spk) ∧
      sound_off (sound_off spk) = sound_off spk := by
  obtain ⟨mine, snd, calls⟩ := spk
  cases mine <;>
    simp [sound_off, furi_hal_speaker_is_mine, furi_hal_speaker_stop, furi_hal_speaker_release]

/-- C10 instance: a speaker held by someone else is left alone; an owned, sounding
speaker is stopped and released once. -/
theorem sound_off_idempotent_witness :
    ((⟨false, none, []⟩ : Speaker).mine = false ∧
        sound_off ⟨false, none, []⟩ = ⟨false, none, []⟩) ∧
      sound_off (sound_off ⟨true, some (1209, 0), []⟩) =
        ⟨false, none, [SpeakerCall.stop, SpeakerCall.release]⟩ :=
  ⟨⟨rfl, (sound_off_idempotent ⟨false, none, []⟩).1 rfl⟩,
    (sound_off_idempotent ⟨true, some (1209, 0), []⟩).2⟩

/-! ## Table theorems -/

/-- C11: the `tones` table has exactly 16 entries; every (low, high) pair of the
row frequencies 697, 770, 852, 941 and the column frequencies 1209, 1336, 1477,
1633 occurs in exactly one entry; and the entry at index `4 * r + c` has the `r`-th
row frequency as `low`, the `c`-th column frequency as `high` and the
`(4 * r + c)`-th character of 1,2,3,A,4,5,6,B,7,8,9,C,*,0,#,D as `key`. -/
theorem tones_table_complete :
    tones.length = 16 ∧
      (∀ lo ∈ row_frequencies, ∀ hi ∈ column_frequencies,
        (tones.filter (fun t => decide (t.low = lo ∧ t.high = hi))).length = 1) ∧
      (∀ r c : Fin 4,
        (tones.get? (4 * r.val + c.val)).map (fun t => t.low) = row_frequencies.get? r.val ∧
        (tones.get? (4 * r.val + c.val)).map (fun t => t.high) = column_frequencies.get? c.val ∧
        (tones.get? (4 * r.val + c.val)).map (fun t => t.key) =
          key_sequence.get? (4 * r.val + c.val)) := by
  refine ⟨rfl, by decide, by decide⟩

/-- C16: the keyboard table has 4 rows of 5 cells; the cell at row 0, column 4 is
the only one holding `DTMFToneInvalid`; every identifier occurs in the table, and
no identifier occurs in two cells, so the position that the search loops of
`move_selected` locate for a selected identifier is unique. -/
theorem keyboard_cells_unique :
    keyboard.length = 4 ∧ (∀ row ∈ keyboard, row.length = 5) ∧
      (∀ c : Fin 4 × Fin 5, cell_id c = DTMFToneInvalid ↔ c = (0, 4)) ∧
      (∀ sel : DTMF_SELECTED, ∃ c : Fin 4 × Fin 5, cell_id c = sel) ∧
      (∀ c d : Fin 4 × Fin 5, cell_id c = cell_id d → c = d) ∧
      (∀ sel : DTMF_SELECTED,
        (scan_order.filter (fun c => decide (cell_id c = sel))).length = 1) := by
  refine ⟨rfl, by decide, by decide, by decide, by decide, by decide⟩

/-- C17: from a non-Invalid cell at position `c`, as many directional moves as
there are non-Invalid cells on the line walked (the row of `c` for Left and Right,
its column for Up and Down) return the selection to the starting cell, and no
smaller positive number of moves does; that number is 4 horizontally in row 0 and 5
in rows 1-3, 4 vertically in columns 0-3 and 3 in column 4. -/
theorem move_selected_period (fuel : Nat) (state : DTMFState) (c : Fin 4 × Fin 5)
    (key : InputKey) (hcell : cell_id c = state.selected)
    (hvalid : state.selected ≠ DTMFToneInvalid) (hdir : is_direction key) :
    move_times (fuel + 1) (line_valid_count key c) state key = some state ∧
      (∀ m, 0 < m → m < line_valid_count key c →
        ∃ s, move_times (fuel + 1) m state key = some s ∧ s ≠ state) ∧
      line_valid_count key c =
        (if key = InputKeyLeft ∨ key = InputKeyRight then (if c.1 = 0 then 4 else 5)
         else (if c.2 = 4 then 3 else 4)) := by
  have hc : cell_id c ≠ DTMFToneInvalid := by rw [hcell]; exact hvalid
  rw [line_valid_count_eq key c hdir]
  refine ⟨?_, ?_, ?_⟩
  · rw [move_times_hop fuel _ state key hdir, ← hcell, hop_cycle key c hdir hc, hcell]
  · intro m hm0 hm
    have hle := cycle_length_le key c
    refine ⟨_, move_times_hop fuel m state key hdir, ?_⟩
    intro heq
    have hsel : (fun s => hop s key)^[m] state.selected = state.selected :=
      congrArg DTMFState.selected heq
    rw [← hcell] at hsel
    exact hop_cycle_minimal key c hdir hc ⟨m, by omega⟩ hm0 hm hsel
  · rcases hdir with h | h | h | h <;> subst h <;> simp [cycle_length]

/-- C17 instance: `DTMFVolumeUp` (row 2, column 4) moved Down: three moves return,
one and two do not. -/
theorem move_selected_period_witness :
    cell_id (2, 4) = (⟨false, 5, none, DTMFVolumeUp⟩ : DTMFState).selected ∧
      (⟨false, 5, none, DTMFVolumeUp⟩ : DTMFState).selected ≠ DTMFToneInvalid ∧
      is_direction InputKeyDown ∧
      move_times 1 3 ⟨false, 5, none, DTMFVolumeUp⟩ InputKeyDown =
        some ⟨false, 5, none, DTMFVolumeUp⟩ ∧
      move_times 1 1 ⟨false, 5, none, DTMFVolumeUp⟩ InputKeyDown =
        some ⟨false, 5, none, DTMFVolumeDown⟩ ∧
      move_times 1 2 ⟨false, 5, none, DTMFVolumeUp⟩ InputKeyDown =
        some ⟨false, 5, none, DTMFPlayStop⟩ :=
  ⟨by decide, by decide, by decide,
    (move_selected_period 0 ⟨false, 5, none, DTMFVolumeUp⟩ (2, 4) InputKeyDown
      (by decide) (by decide) (by decide)).1, by decide, by decide⟩

/-! ## Event-loop theorems, continued -/

/-- C12: with one of the 16 tone cells selected, an OK Press event sets the active
tone to `&tones[selected]`, which is the entry whose key is the character of the
selected cell, and starts no audio: `playing`, `volume`, `selected`, the running
flag and the speaker (ownership, sounding tone, issued calls) are unchanged. -/
theorem ok_press_selects_tone (fuel : Nat) (acq : Bool) (ls : LoopState)
    (hsel : is_tone_cell ls.state.selected) :
    (∃ ls1, loop_body fuel acq (some ok_press) ls = some ls1 ∧
        ls1.state.tone = some ls.state.selected.toNat ∧
        ls1.state.playing = ls.state.playing ∧ ls1.state.volume = ls.state.volume ∧
        ls1.state.selected = ls.state.selected ∧ ls1.running = ls.running ∧
        ls1.speaker = ls.speaker) ∧
      ∃ t, tones.get? ls.state.selected.toNat = some t ∧
        some t.key = key_char ls.state.selected := by
  obtain ⟨⟨p, v, t, sel⟩, spk, r⟩ := ls
  obtain ⟨h1, h2, h3, h4⟩ := hsel
  cases sel <;>
    first
    | exact absurd rfl h1
    | exact absurd rfl h2
    | exact absurd rfl h3
    | exact absurd rfl h4
    | exact ⟨⟨_, rfl, rfl, rfl, rfl, rfl, rfl, rfl⟩, _, rfl, rfl⟩

/-- C12 instance: OK Press on `DTMFToneHash` chooses `tones[14]`, the `#` entry. -/
theorem ok_press_selects_tone_witness :
    is_tone_cell (⟨⟨false, 5, none, DTMFToneHash⟩, ⟨false, none, []⟩, true⟩ : LoopState).state.selected ∧
      loop_body 0 false (some ok_press) ⟨⟨false, 5, none, DTMFToneHash⟩, ⟨false, none, []⟩, true⟩ =
        some ⟨⟨false, 5, some 14, DTMFToneHash⟩, ⟨false, none, []⟩, true⟩ ∧
      ∃ t, tones.get? DTMFToneHash.toNat = some t ∧ some t.key = key_char DTMFToneHash :=
  ⟨by decide, rfl,
    (ok_press_selects_tone 0 false ⟨⟨false, 5, none, DTMFToneHash⟩, ⟨false, none, []⟩, true⟩
      (by decide)).2⟩

/-- C13: an event that is not a Press of Up, Down, Left or Right (any Release,
Long, Short or Repeat event, and a Press of OK or of another key) leaves `selected`
unchanged, and the loop body returns on it whenever `tone` is `NULL` or points into
`tones`. -/
theorem non_navigation_keeps_selected (fuel : Nat) (acq : Bool) (ev : InputEvent)
    (ls : LoopState) (hev : ¬(ev.type = InputTypePress ∧ is_direction ev.key)) :
    (∀ ls1, loop_body fuel acq (some ev) ls = some ls1 →
        ls1.state.selected = ls.state.selected) ∧
      ((∀ k, ls.state.tone = some k → k < tones.length) →
        ∃ ls1, loop_body fuel acq (some ev) ls = some ls1 ∧
          ls1.state.selected = ls.state.selected) := by
  refine ⟨fun ls1 h => loop_body_selected fuel acq ev ls ls1 h hev, fun htone => ?_⟩
  obtain ⟨ls1, h⟩ := loop_body_returns fuel acq (some ev) ls htone
    (Or.inr (fun e he => by cases he; exact hev))
  exact ⟨ls1, h, loop_body_selected fuel acq ev ls ls1 h hev⟩

/-- C13 instance: an OK Long on `DTMFPlayStop` with a tone chosen starts the tone
and keeps the selection. -/
theorem non_navigation_keeps_selected_witness :
    ¬(ok_long.type = InputTypePress ∧ is_direction ok_long.key) ∧
      ∃ ls1, loop_body 0 true (some ok_long)
          ⟨⟨false, 5, some 0, DTMFPlayStop⟩, ⟨false, none, []⟩, true⟩ = some ls1 ∧
        ls1.state.selected = DTMFPlayStop :=
  ⟨by decide,
    (non_navigation_keeps_selected 0 true ok_long
      ⟨⟨false, 5, some 0, DTMFPlayStop⟩, ⟨false, none, []⟩, true⟩ (by decide)).2
      (fun k hk => by cases hk; decide)⟩

/-- C14: while the loop runs, the loop body returns and clears the running flag
exactly when the event is a Press of a key outside Up, Down, Left, Right and OK; an
event whose key is one of those five, of whatever kind, leaves the loop running. -/
theorem running_cleared_iff_other_press (fuel : Nat) (acq : Bool) (ev : InputEvent)
    (ls : LoopState) (hrun : ls.running = true)
    (htone : ∀ k, ls.state.tone = some k → k < tones.length) :
    ∃ ls1, loop_body (fuel + 1) acq (some ev) ls = some ls1 ∧
      (ls1.running = false ↔
        (ev.type = InputTypePress ∧ ¬is_direction ev.key ∧ ev.key ≠ InputKeyOk)) ∧
      (is_direction ev.key ∨ ev.key = InputKeyOk → ls1.running = true) := by
  obtain ⟨ls1, h⟩ := loop_body_returns (fuel + 1) acq (some ev) ls htone
    (Or.inl (Nat.succ_pos fuel))
  obtain ⟨hclear, hkeep⟩ := loop_body_running (fuel + 1) acq ev ls ls1 h
  refine ⟨ls1, h, ⟨fun hr => ?_, hclear⟩, fun hk => ?_⟩
  · by_contra hc
    rw [hkeep hc, hrun] at hr
    exact absurd hr (by decide)
  · rw [hkeep (fun hc => ?_), hrun]
    rcases hk with hk | hk
    · exact hc.2.1 hk
    · exact hc.2.2 hk

/-- C14 instance: a Press of Back from the startup state ends the loop. -/
theorem running_cleared_iff_other_press_witness :
    startup.running = true ∧ (∀ k, startup.state.tone = some k → k < tones.length) ∧
      loop_body 1 false (some ⟨InputKeyBack, InputTypePress⟩) startup =
        some { startup with running := false } ∧
      ∃ ls1, loop_body 1 false (some ⟨InputKeyBack, InputTypePress⟩) startup = some ls1 ∧
        (ls1.running = false ↔
          (InputTypePress = InputTypePress ∧ ¬is_direction InputKeyBack ∧
            InputKeyBack ≠ InputKeyOk)) ∧
        (is_direction InputKeyBack ∨ InputKeyBack = InputKeyOk → ls1.running = true) :=
  ⟨rfl, (fun k hk => by cases hk), rfl,
    running_cleared_iff_other_press 0 false ⟨InputKeyBack, InputTypePress⟩ startup rfl
      (fun k hk => by cases hk)⟩

/-- C15: whenever a finite sequence of iterations from the startup state ends the
loop, in whatever state (also with `playing = true`, the speaker owned and a tone
sounding), `dtmf_generator_main` returns 0, and after its teardown the program no
longer owns the speaker and no tone it started is sounding. -/
theorem main_teardown_silences (fuel : Nat) (inputs : List (Bool × Option InputEvent))
    (ls : LoopState) (hrun : run (fuel + 1) startup inputs = some ls)
    (hend : ls.running = false) :
    ∃ spk, dtmf_generator_main (fuel + 1) true inputs = some (0, spk) ∧
      spk = sound_off ls.speaker ∧ spk.mine = false ∧ spk.sounding = none := by
  have hinv := run_speaker_invariant (fuel + 1) inputs startup ls hrun startup_speaker_invariant
  obtain ⟨hm, hs⟩ := sound_off_released ls.speaker hinv.2
  refine ⟨sound_off ls.speaker, ?_, rfl, hm, hs⟩
  simp [dtmf_generator_main, hrun, hend]

/-- C15 instance: Back pressed while tone 1 is sounding; the loop ends with the
speaker owned and driven, and the teardown stops and releases it. -/
theorem main_teardown_silences_witness :
    run 1 startup quit_while_playing_inputs =
        some ⟨⟨true, 5, some 0, DTMFPlayStop⟩,
          ⟨true, some (1209, float_div (int_to_float 5) (int_to_float 100)),
            [SpeakerCall.acquire 30, SpeakerCall.start 1209 (float_div (int_to_float 5) (int_to_float 100))]⟩, false⟩ ∧
      ∃ spk, dtmf_generator_main 1 true quit_while_playing_inputs = some (0, spk) ∧
        spk = sound_off ⟨true, some (1209, float_div (int_to_float 5) (int_to_float 100)),
            [SpeakerCall.acquire 30, SpeakerCall.start 1209 (float_div (int_to_float 5) (int_to_float 100))]⟩ ∧
        spk.mine = false ∧ spk.sounding = none :=
  ⟨rfl, main_teardown_silences 0 quit_while_playing_inputs
    ⟨⟨true, 5, some 0, DTMFPlayStop⟩,
      ⟨true, some (1209, float_div (int_to_float 5) (int_to_float 100)),
        [SpeakerCall.acquire 30, SpeakerCall.start 1209 (float_div (int_to_float 5) (int_to_float 100))]⟩, false⟩
    rfl rfl⟩

/-- C18: every finite sequence of iterations from the startup state returns a
state in which, if an OK Press would reach the branch `tone = &tones[selected]`
(the selection is none of `DTMFPlayStop`, `DTMFVolumeUp`, `DTMFVolumeDown`), the
index `selected` is below the length of `tones`, which is 16, and that branch
stores `&tones[selected]`. -/
theorem tone_index_in_bounds (fuel : Nat) (inputs : List (Bool × Option InputEvent)) :
    ∃ ls, run (fuel + 1) startup inputs = some ls ∧ tones.length = 16 ∧
      (ls.state.selected ≠ DTMFPlayStop → ls.state.selected ≠ DTMFVolumeUp →
        ls.state.selected ≠ DTMFVolumeDown →
          ls.state.selected.toNat < tones.length ∧
          on_press (fuel + 1) InputKeyOk ls =
            some { ls with state := { ls.state with tone := some ls.state.selected.toNat } }) := by
  obtain ⟨ls, hrun, _, _, hsel, _⟩ := run_invariant fuel inputs startup startup_invariant
  refine ⟨ls, hrun, rfl, fun h1 h2 h3 => ⟨toNat_lt _ h1 h2 h3 hsel, ?_⟩⟩
  simp [on_press, h1, h2, h3]

/-- C19: every finite sequence of iterations from the startup state, in which the
program does not own the speaker, returns a state in which the program owns the
speaker only if `playing = true`; so whenever `playing = false` the program neither
owns the speaker nor drives a tone. -/
theorem owned_speaker_implies_playing (fuel : Nat) (inputs : List (Bool × Option InputEvent)) :
    startup.speaker.mine = false ∧
      ∃ ls, run (fuel + 1) startup inputs = some ls ∧
        (ls.speaker.mine = true → ls.state.playing = true) ∧
        (ls.state.playing = false → ls.speaker.mine = false ∧ ls.speaker.sounding = none) := by
  obtain ⟨ls, hrun, _⟩ := run_invariant fuel inputs startup startup_invariant
  obtain ⟨hown, hdrive⟩ :=
    run_speaker_invariant (fuel + 1) inputs startup ls hrun startup_speaker_invariant
  refine ⟨rfl, ls, hrun, hown, fun hp => ?_⟩
  have hm : ls.speaker.mine = false := by
    cases hmine : ls.speaker.mine with
    | false => rfl
    | true =>
      rw [hown hmine] at hp
      exact absurd hp (by decide)
  refine ⟨hm, ?_⟩
  by_contra hs
  rw [hdrive hs] at hm
  exact absurd hm (by decide)

/-- C20: the scenario of `stuck_tone_inputs` (choose tone 1, navigate to
`DTMFPlayStop`, OK Long, Down, OK Release) does not end the loop, ends with an OK
Release, and leaves `playing = true` with the speaker owned and tone 1 sounding:
the OK Long started the tone, and the OK Release, processed with the selection on
`DTMFVolumeUp`, did not stop it. -/
theorem release_after_moving_keeps_tone :
    stuck_tone_inputs.getLast? = some (true, some ok_release) ∧
      run 1 startup (stuck_tone_inputs.take 4) =
        some ⟨⟨true, 5, some 0, DTMFPlayStop⟩,
          ⟨true, some (1209, float_div (int_to_float 5) (int_to_float 100)),
            [SpeakerCall.acquire 30, SpeakerCall.start 1209 (float_div (int_to_float 5) (int_to_float 100))]⟩, true⟩ ∧
      run 1 startup stuck_tone_inputs =
        some ⟨⟨true, 5, some 0, DTMFVolumeUp⟩,
          ⟨true, some (1209, float_div (int_to_float 5) (int_to_float 100)),
            [SpeakerCall.acquire 30, SpeakerCall.start 1209 (float_div (int_to_float 5) (int_to_float 100))]⟩, true⟩ := by
  refine ⟨rfl, rfl, rfl⟩

end DTMF
